import Mathlib

/-
Verification development for the carbon-ledger-mrv calculation core.

The JavaScript source is shallowly embedded over exact rational arithmetic
(ℚ).  JavaScript numbers are IEEE doubles; every claim under study is about
the structure of the computations (which inputs feed which formula, which
branch is taken, how rounding is applied), not about float rounding error,
so ℚ is the faithful carrier for them.  Two JS idioms recur and are modelled
explicitly:

* `a || b` on numbers/strings falls through on *falsy* values (0, "", null,
  undefined) — modelled by the jsOr* helpers below on `Option`;
* `a ?? b` falls through only on null/undefined — modelled by `Option.getD`
  and `Option.orElse`;
* `Math.round x` is floor (x + 1/2) — modelled by `jsRound`.

The one place the model departs from IEEE semantics: the formula evaluator's
final `isFinite` guard (which turns division-by-zero Infinity/NaN into an
error result) is enforced at the division / exponentiation sites instead of
at the end, and `Math.pow` is modelled only at integer exponents (the
`jsPow` function rejects non-integral exponents, which produce irrational
results outside ℚ).  No claim under study exercises those corners.
-/

namespace CarbonLedger

set_option maxRecDepth 2000 in
set_option maxRecDepth 2000 in
/-- JS `a || b` for an optional number: falsy (absent or zero) falls through. -/
def jsOrQ (a : Option ℚ) (b : ℚ) : ℚ :=
  match a with
  | some v => if v = 0 then b else v
  | none => b

/-- JS `a || b` for an optional string: falsy (absent or empty) falls through. -/
def jsOrStr (a : Option String) (b : String) : String :=
  match a with
  | some s => if s = "" then b else s
  | none => b

/-- JS `a || b` where both sides are optional (the fallback may itself be
absent); used for chains like `entry.fuel_type_id || entry.fuelTypeId`. -/
def jsOrRaw (a b : Option String) : Option String :=
  match a with
  | some s => if s = "" then b else some s
  | none => b

/-- JS `Math.round`: round half towards positive infinity. -/
def jsRound (q : ℚ) : ℤ := ⌊q + 1/2⌋

/-- A string is empty or all-whitespace, i.e. `!s || !s.trim()` holds in JS. -/
def emptyOrBlank (s : String) : Bool := s.data.all Char.isWhitespace

-- ═══════════════════════════════════════════════════════════════
--  src/engine/formulaEvaluator.js
-- ═══════════════════════════════════════════════════════════════

/-- Tokens produced by `tokenize` (the explicit EOF marker of the source is
represented by the end of the token list). -/
inductive Token where
  | num (v : ℚ)
  | ident (s : String)
  | plus
  | minus
  | star
  | slash
  | caret
  | lparen
  | rparen
deriving DecidableEq

/-- Character class of the tokenizer's number start: `[0-9.]`. -/
def isNumStart (c : Char) : Bool := c.isDigit || c == '.'

/-- Character class of the tokenizer's number continuation: `[0-9.eE]`. -/
def isNumCont (c : Char) : Bool := c.isDigit || c == '.' || c == 'e' || c == 'E'

/-- Character class of an identifier start: `[a-zA-Z_]`. -/
def isIdentStart (c : Char) : Bool := c.isAlpha || c == '_'

/-- Character class of an identifier continuation: `[a-zA-Z0-9_]`. -/
def isIdentCont (c : Char) : Bool := c.isAlpha || c.isDigit || c == '_'

/-- The operator / parenthesis characters `'+-*/^()'.includes(ch)`. -/
def charToOp (c : Char) : Option Token :=
  if c == '+' then some .plus
  else if c == '-' then some .minus
  else if c == '*' then some .star
  else if c == '/' then some .slash
  else if c == '^' then some .caret
  else if c == '(' then some .lparen
  else if c == ')' then some .rparen
  else none

/-- Fold a run of decimal digits into a natural number. -/
def digitsToNat (ds : List Char) : ℕ :=
  ds.foldl (fun a c => 10 * a + (c.toNat - '0'.toNat)) 0

/-- JS `parseFloat` restricted to the tokenizer's number alphabet `[0-9.eE]`:
longest valid prefix of `digits [. digits] [eE digits]`; `none` models NaN
(no digit before the first non-mantissa character).  The exponent marker is
part of the prefix only when at least one digit follows it. -/
def parseFloatQ (cs : List Char) : Option ℚ :=
  let ds1 := cs.takeWhile Char.isDigit
  let r1 := cs.dropWhile Char.isDigit
  let ds2 :=
    match r1 with
    | '.' :: t => t.takeWhile Char.isDigit
    | _ => []
  let r2 :=
    match r1 with
    | '.' :: t => t.dropWhile Char.isDigit
    | _ => r1
  if ds1.isEmpty && ds2.isEmpty then
    none
  else
    let mantissa : ℚ := (digitsToNat (ds1 ++ ds2) : ℚ) / (10 : ℚ) ^ ds2.length
    let expo : ℕ :=
      match r2 with
      | c :: t =>
        if c == 'e' || c == 'E' then
          let ds3 := t.takeWhile Char.isDigit
          if ds3.isEmpty then 0 else digitsToNat ds3
        else 0
      | [] => 0
    some (mantissa * (10 : ℚ) ^ expo)

/-- The tokenizer loop; fuel is a strict upper bound on the characters left
(each iteration consumes at least one character, so the fuel branch is
unreachable from `tokenize`). -/
def tokenizeLoop : ℕ → List Char → Except String (List Token)
  | 0, _ => .error "tokenizer fuel exhausted"
  | _ + 1, [] => .ok []
  | fuel + 1, c :: rest =>
    if c.isWhitespace then
      tokenizeLoop fuel rest
    else if isNumStart c then
      let numCs := (c :: rest).takeWhile isNumCont
      let rest1 := (c :: rest).dropWhile isNumCont
      match parseFloatQ numCs with
      | none => .error ("Invalid number: " ++ String.mk numCs)
      | some v => (tokenizeLoop fuel rest1).map (Token.num v :: ·)
    else if isIdentStart c then
      let identCs := (c :: rest).takeWhile isIdentCont
      let rest1 := (c :: rest).dropWhile isIdentCont
      (tokenizeLoop fuel rest1).map (Token.ident (String.mk identCs) :: ·)
    else
      match charToOp c with
      | some t => (tokenizeLoop fuel rest).map (t :: ·)
      | none => .error ("Unexpected character: " ++ String.mk [c])

/-- `tokenize` from formulaEvaluator.js. -/
def tokenize (cs : List Char) : Except String (List Token) :=
  tokenizeLoop (cs.length + 1) cs

/-- Variable lookup: `name in variables` followed by `Number(variables[name])`. -/
def lookupVar (vars : List (String × ℚ)) (n : String) : Option ℚ :=
  (vars.find? (fun p => p.fst == n)).map Prod.snd

/-- Error message of the evaluator's non-finite-result guard. -/
def nonFiniteMsg : String := "Result is not a finite number (division by zero?)"

/-- `Math.pow` at integer exponents over ℚ.  `0 ** n` with `n < 0` is
Infinity in JS and is flagged with the evaluator's non-finite error;
non-integral exponents are outside the exact-arithmetic model. -/
def jsPow (b e : ℚ) : Except String ℚ :=
  if e.den = 1 then
    if b = 0 ∧ e.num < 0 then .error nonFiniteMsg
    else .ok (b ^ e.num)
  else .error "non-integral exponent (outside the exact-arithmetic model)"

mutual

/-- `expression := term (('+'|'-') term)*`. -/
def expressionP : ℕ → List (String × ℚ) → List Token → Except String (ℚ × List Token)
  | 0, _, _ => .error "parser fuel exhausted"
  | fuel + 1, vars, ts => do
    let (v, ts1) ← termP fuel vars ts
    exprLoopP fuel vars v ts1

/-- The `while`-loop of `expression`. -/
def exprLoopP : ℕ → List (String × ℚ) → ℚ → List Token → Except String (ℚ × List Token)
  | 0, _, _, _ => .error "parser fuel exhausted"
  | fuel + 1, vars, acc, ts =>
    match ts with
    | .plus :: rest => do
      let (r, ts1) ← termP fuel vars rest
      exprLoopP fuel vars (acc + r) ts1
    | .minus :: rest => do
      let (r, ts1) ← termP fuel vars rest
      exprLoopP fuel vars (acc - r) ts1
    | _ => .ok (acc, ts)

/-- `term := power (('*'|'/') power)*`. -/
def termP : ℕ → List (String × ℚ) → List Token → Except String (ℚ × List Token)
  | 0, _, _ => .error "parser fuel exhausted"
  | fuel + 1, vars, ts => do
    let (v, ts1) ← powerP fuel vars ts
    termLoopP fuel vars v ts1

/-- The `while`-loop of `term`; a zero divisor is the model's site of the
source's final `isFinite` guard. -/
def termLoopP : ℕ → List (String × ℚ) → ℚ → List Token → Except String (ℚ × List Token)
  | 0, _, _, _ => .error "parser fuel exhausted"
  | fuel + 1, vars, acc, ts =>
    match ts with
    | .star :: rest => do
      let (r, ts1) ← powerP fuel vars rest
      termLoopP fuel vars (acc * r) ts1
    | .slash :: rest => do
      let (r, ts1) ← powerP fuel vars rest
      if r = 0 then .error nonFiniteMsg
      else termLoopP fuel vars (acc / r) ts1
    | _ => .ok (acc, ts)

/-- `power := unary ('^' power)?` — right-associative. -/
def powerP : ℕ → List (String × ℚ) → List Token → Except String (ℚ × List Token)
  | 0, _, _ => .error "parser fuel exhausted"
  | fuel + 1, vars, ts => do
    let (b, ts1) ← unaryP fuel vars ts
    match ts1 with
    | .caret :: rest => do
      let (e, ts2) ← powerP fuel vars rest
      match jsPow b e with
      | .ok v => .ok (v, ts2)
      | .error msg => .error msg
    | _ => .ok (b, ts1)

/-- `unary := '-'? primary` — note the negation applies to `primary`, not to
a whole `power`. -/
def unaryP : ℕ → List (String × ℚ) → List Token → Except String (ℚ × List Token)
  | 0, _, _ => .error "parser fuel exhausted"
  | fuel + 1, vars, ts =>
    match ts with
    | .minus :: rest => do
      let (v, ts1) ← primaryP fuel vars rest
      .ok (-v, ts1)
    | _ => primaryP fuel vars ts

/-- `primary := NUMBER | IDENT | '(' expression ')'`. -/
def primaryP : ℕ → List (String × ℚ) → List Token → Except String (ℚ × List Token)
  | 0, _, _ => .error "parser fuel exhausted"
  | fuel + 1, vars, ts =>
    match ts with
    | .num v :: rest => .ok (v, rest)
    | .ident n :: rest =>
      match lookupVar vars n with
      | some v => .ok (v, rest)
      | none => .error ("Unknown variable: " ++ n)
    | .lparen :: rest => do
      let (v, ts1) ← expressionP fuel vars rest
      match ts1 with
      | .rparen :: ts2 => .ok (v, ts2)
      | _ => .error "Expected RPAREN"
    | _ => .error "Unexpected token"

end

/-- `Parser.parse`: run `expression` and require that every token was
consumed.  The fuel is an over-approximation of the recursion depth (each
cycle of the grammar consumes at least one token). -/
def parseTokens (vars : List (String × ℚ)) (ts : List Token) : Except String ℚ :=
  match expressionP (6 * ts.length + 8) vars ts with
  | .ok (v, []) => .ok v
  | .ok (_, _ :: _) => .error "Unexpected token after expression"
  | .error e => .error e

/-- Result shape of `evaluate`: `{value, error}`. -/
structure EvalResult where
  value : Option ℚ
  error : Option String
deriving DecidableEq

/-- `evaluate(formula, variables)` from formulaEvaluator.js. -/
def evaluate (formula : String) (vars : List (String × ℚ)) : EvalResult :=
  if emptyOrBlank formula then
    { value := some 0, error := none }
  else
    match tokenize formula.data with
    | .error e => { value := none, error := some e }
    | .ok ts =>
      match parseTokens vars ts with
      | .error e => { value := none, error := some e }
      | .ok v => { value := some v, error := none }

-- ═══════════════════════════════════════════════════════════════
--  Emission engine (emissionEngine.js)
-- ═══════════════════════════════════════════════════════════════

/-- A fuel-type definition from `DEFAULT_EMISSION_FACTORS`.  The display-only
unit-label strings (ncvUnit, unitFamily, defaultUnit, source) are omitted:
they feed only the lineage audit record, which is not modelled. -/
structure FuelDef where
  name : String
  ncv : ℚ
  efCO2 : ℚ
  efCH4 : ℚ
  efN2O : ℚ
deriving DecidableEq

/-- The `custom` entry of `DEFAULT_EMISSION_FACTORS` (all factors zero). -/
def customFuelDef : FuelDef :=
  { name := "Other (custom)", ncv := 0, efCO2 := 0, efCH4 := 0, efN2O := 0 }

/-- `DEFAULT_EMISSION_FACTORS` — IPCC 2006 defaults keyed by fuel-type id. -/
def DEFAULT_EMISSION_FACTORS : List (String × FuelDef) :=
  [ ("natural_gas", { name := "Natural Gas", ncv := 48.0, efCO2 := 56100, efCH4 := 5, efN2O := 0.1 }),
    ("diesel", { name := "Diesel", ncv := 43.0, efCO2 := 74100, efCH4 := 3, efN2O := 0.6 }),
    ("coke", { name := "Coke", ncv := 28.2, efCO2 := 107000, efCH4 := 1, efN2O := 1.5 }),
    ("fuel_oil", { name := "Fuel Oil (Heavy)", ncv := 40.4, efCO2 := 77400, efCH4 := 3, efN2O := 0.6 }),
    ("lpg", { name := "LPG", ncv := 47.3, efCO2 := 63100, efCH4 := 1, efN2O := 0.1 }),
    ("custom", customFuelDef) ]

/-- Dynamic property access `DEFAULT_EMISSION_FACTORS[key]`. -/
def lookupFuelDef (k : String) : Option FuelDef :=
  (DEFAULT_EMISSION_FACTORS.find? (fun p => p.fst == k)).map Prod.snd

/-- `GWP_AR6` — the EU CBAM 2025/2547 GWP set. -/
structure GwpSet where
  id : String
  name : String
  CO2 : ℚ
  CH4 : ℚ
  N2O : ℚ
  CF4 : ℚ
  C2F6 : ℚ
deriving DecidableEq

def GWP_AR6 : GwpSet :=
  { id := "EU_CBAM_2025", name := "EU CBAM 2025/2547",
    CO2 := 1, CH4 := 29.8, N2O := 265, CF4 := 6630, C2F6 := 11100 }

/-- Dynamic property access `gwp[gas]` for a gas name. -/
def gwpLookup (g : GwpSet) (gas : String) : Option ℚ :=
  if gas == "CO2" then some g.CO2
  else if gas == "CH4" then some g.CH4
  else if gas == "N2O" then some g.N2O
  else if gas == "CF4" then some g.CF4
  else if gas == "C2F6" then some g.C2F6
  else none

/-- A fuel activity entry.  Both the snake_case and camelCase spellings of the
duck-typed fields are kept, since the source falls back between them with
`||`.  `quantity` is modelled as the number the source's `Number(x) || 0`
coercion produces. -/
structure FuelEntry where
  id : String := ""
  processId : String := ""
  period : String := ""
  fuel_type_id : Option String := none
  fuelTypeId : Option String := none
  quantity : ℚ := 0
  custom_ncv : Option ℚ := none
  customNcv : Option ℚ := none
  custom_ef_co2 : Option ℚ := none
  customEfCo2 : Option ℚ := none
  custom_ef_ch4 : Option ℚ := none
  customEfCh4 : Option ℚ := none
  custom_ef_n2o : Option ℚ := none
  customEfN2o : Option ℚ := none
deriving DecidableEq

/-- `factors || DEFAULT_EMISSION_FACTORS[entry.fuel_type_id || entry.fuelTypeId]
|| DEFAULT_EMISSION_FACTORS.custom`. -/
def fuelDefOf (entry : FuelEntry) (factors : Option FuelDef) : FuelDef :=
  match factors with
  | some f => f
  | none => (((jsOrRaw entry.fuel_type_id entry.fuelTypeId).bind lookupFuelDef).getD customFuelDef)

/-- Numeric outputs of `calcCombustionEmissions` (lineage omitted: it echoes
the same inputs and outputs for audit display). -/
structure CombustionResult where
  energyTJ : ℚ
  co2 : ℚ
  ch4 : ℚ
  n2o : ℚ
  co2e : ℚ
deriving DecidableEq

/-- `calcCombustionEmissions(entry, factors, gwp)` from emissionEngine.js. -/
def calcCombustionEmissions (entry : FuelEntry) (factors : Option FuelDef) (gwp : GwpSet) :
    CombustionResult :=
  let fuelDef := fuelDefOf entry factors
  let ncv := jsOrQ entry.custom_ncv (jsOrQ entry.customNcv fuelDef.ncv)
  let efCO2 := jsOrQ entry.custom_ef_co2 (jsOrQ entry.customEfCo2 fuelDef.efCO2)
  let efCH4 := jsOrQ entry.custom_ef_ch4 (jsOrQ entry.customEfCh4 fuelDef.efCH4)
  let efN2O := jsOrQ entry.custom_ef_n2o (jsOrQ entry.customEfN2o fuelDef.efN2O)
  let quantity := entry.quantity
  let energyGJ := quantity * ncv
  let energyTJ := energyGJ / 1000
  let co2Tonnes := energyTJ * efCO2 / 1000
  let ch4Tonnes := energyTJ * efCH4 / 1000
  let n2oTonnes := energyTJ * efN2O / 1000
  { energyTJ := energyTJ, co2 := co2Tonnes, ch4 := ch4Tonnes, n2o := n2oTonnes,
    co2e := co2Tonnes * gwp.CO2 + ch4Tonnes * gwp.CH4 + n2oTonnes * gwp.N2O }

/-- An electricity activity entry. -/
structure ElecEntry where
  id : String := ""
  processId : String := ""
  period : String := ""
  mwh : ℚ := 0
  ef : ℚ := 0
deriving DecidableEq

/-- `calcElectricityEmissions`: CO₂e = MWh × EF. -/
def calcElectricityEmissions (entry : ElecEntry) : ℚ :=
  entry.mwh * entry.ef

/-- The mapped per-period process-event parameters consumed by the legacy
anode / PFC calculations.  `c2f6Cf4` is the source's C₂F₆/CF₄ quotient
parameter. -/
structure AnodeParams where
  metalProduction : ℚ := 0
  netAnodeConsumption : ℚ := 0
  anodeCarbonFraction : ℚ := 0
  anodeSulfurFraction : ℚ := 0
  anodeAshFraction : ℚ := 0
  aemMinutes : ℚ := 0
  cf4SlopeFactor : ℚ := 0
  c2f6Cf4 : ℚ := 0
deriving DecidableEq

/-- `calcAnodeEmissions`: CO₂ = production × anodeRate/1000 × (C − S − ash) × 44/12. -/
def calcAnodeEmissions (p : AnodeParams) : ℚ :=
  let anodeConsumptionT := p.metalProduction * p.netAnodeConsumption / 1000
  let effectiveCarbon := p.anodeCarbonFraction - p.anodeSulfurFraction - p.anodeAshFraction
  anodeConsumptionT * effectiveCarbon * (44 / 12)

/-- Outputs of `calcPFCEmissions`. -/
structure PfcResult where
  cf4 : ℚ
  c2f6 : ℚ
  co2e : ℚ
deriving DecidableEq

/-- `calcPFCEmissions`: CF₄ = production × AEM × slope; C₂F₆ = CF₄ × quotient. -/
def calcPFCEmissions (p : AnodeParams) (gwp : GwpSet) : PfcResult :=
  let cf4 := p.metalProduction * p.aemMinutes * p.cf4SlopeFactor
  let c2f6 := cf4 * p.c2f6Cf4
  { cf4 := cf4, c2f6 := c2f6, co2e := cf4 * gwp.CF4 + c2f6 * gwp.C2F6 }

/-- A named parameter of a generic emission block (`value ?? defaultValue ?? 0`). -/
structure BlockParam where
  key : String
  value : Option ℚ := none
  defaultValue : Option ℚ := none
deriving DecidableEq

/-- A generic formula-based emission block. -/
structure EmissionBlock where
  id : String := ""
  name : String := ""
  period : String := ""
  processId : String := ""
  formula : String := ""
  outputGas : Option String := none
  parameters : List BlockParam := []
deriving DecidableEq

/-- JS object property write `o[k] = v`: overwrite in place, append if new. -/
def setAssoc (acc : List (String × ℚ)) (k : String) (v : ℚ) : List (String × ℚ) :=
  if acc.any (fun q => q.fst == k) then
    acc.map (fun q => if q.fst == k then (k, v) else q)
  else acc ++ [(k, v)]

/-- The variable map built from `block.parameters` by
`variables[p.key] = p.value ?? p.defaultValue ?? 0`. -/
def blockVariables (b : EmissionBlock) : List (String × ℚ) :=
  b.parameters.foldl
    (fun acc p => setAssoc acc p.key ((p.value.orElse fun _ => p.defaultValue).getD 0)) []

/-- Result of `calcEmissionBlock` (lineage omitted). -/
structure BlockResult where
  tonnes : ℚ
  co2e : ℚ
  gas : String
  error : Option String
deriving DecidableEq

/-- `calcEmissionBlock(block, gwp)` from emissionEngine.js. -/
def calcEmissionBlock (b : EmissionBlock) (gwp : GwpSet) : BlockResult :=
  if emptyOrBlank b.formula then
    { tonnes := 0, co2e := 0, gas := jsOrStr b.outputGas "CO2", error := none }
  else
    let r := evaluate b.formula (blockVariables b)
    match r.error with
    | some e => { tonnes := 0, co2e := 0, gas := jsOrStr b.outputGas "CO2", error := some e }
    | none =>
      let gas := jsOrStr b.outputGas "CO2"
      let gwpFactor := jsOrQ (gwpLookup gwp gas) 1
      let tonnes := jsOrQ r.value 0
      { tonnes := tonnes, co2e := tonnes * gwpFactor, gas := gas, error := none }

/-- A legacy process-event record (one parameter observation). -/
structure ProcessEvent where
  period : String := ""
  process_id : Option String := none
  processId : Option String := none
  parameter : String
  value : ℚ
deriving DecidableEq

/-- The grouping key `` `${evt.period}_${evt.process_id || evt.processId}` ``
(an absent id interpolates as the string "undefined"). -/
def eventKey (evt : ProcessEvent) : String :=
  evt.period ++ "_" ++
    (match jsOrRaw evt.process_id evt.processId with
     | some s => s
     | none => "undefined")

/-- One bucket of `eventsByPeriod`. -/
structure EventGroup where
  params : List (String × ℚ)
  period : String
  processId : Option String
deriving DecidableEq

/-- Insert one event into the `eventsByPeriod` accumulator (insertion-ordered
JS object keyed by `eventKey`). -/
def addEventToGroups (gs : List (String × EventGroup)) (evt : ProcessEvent) :
    List (String × EventGroup) :=
  let key := eventKey evt
  if gs.any (fun g => g.fst == key) then
    gs.map (fun g =>
      if g.fst == key then
        (key, { params := setAssoc g.snd.params evt.parameter evt.value,
                period := evt.period,
                processId := jsOrRaw evt.process_id evt.processId })
      else g)
  else
    gs ++ [(key, { params := setAssoc [] evt.parameter evt.value,
                   period := evt.period,
                   processId := jsOrRaw evt.process_id evt.processId })]

/-- `Object.values(eventsByPeriod)` after grouping all events. -/
def eventGroups (events : List ProcessEvent) : List EventGroup :=
  (events.foldl addEventToGroups []).map Prod.snd

/-- The `mapped` snake/camel parameter extraction of `calculateTotalEmissions`. -/
def mappedParams (g : EventGroup) : AnodeParams :=
  let look := fun k => (g.params.find? (fun q => q.fst == k)).map Prod.snd
  { metalProduction := jsOrQ (look "metal_production") (jsOrQ (look "metalProduction") 0),
    netAnodeConsumption := jsOrQ (look "net_anode_consumption") (jsOrQ (look "netAnodeConsumption") 0),
    anodeCarbonFraction := jsOrQ (look "anode_carbon_fraction") (jsOrQ (look "anodeCarbonFraction") 0),
    anodeSulfurFraction := jsOrQ (look "anode_sulfur_fraction") (jsOrQ (look "anodeSulfurFraction") 0),
    anodeAshFraction := jsOrQ (look "anode_ash_fraction") (jsOrQ (look "anodeAshFraction") 0),
    aemMinutes := jsOrQ (look "aem_minutes") (jsOrQ (look "aemMinutes") 0),
    cf4SlopeFactor := jsOrQ (look "cf4_slope_factor") (jsOrQ (look "cf4SlopeFactor") 0),
    c2f6Cf4 := jsOrQ (look "c2f6_cf4_ratio") (jsOrQ (look "c2f6Cf4Ratio") 0) }

/-- A per-period anode result entry pushed onto `anodeResults`. -/
structure AnodeEntry where
  period : String
  processId : Option String
  co2 : ℚ
deriving DecidableEq

/-- A per-period PFC result entry pushed onto `pfcResults`. -/
structure PfcEntry where
  period : String
  processId : Option String
  cf4 : ℚ
  c2f6 : ℚ
  co2e : ℚ
deriving DecidableEq

/-- The legacy anode entries of one aggregation call (groups with
`netAnodeConsumption > 0`). -/
def anodeEntriesOf (events : List ProcessEvent) : List AnodeEntry :=
  (eventGroups events).filterMap (fun g =>
    let m := mappedParams g
    if 0 < m.netAnodeConsumption then
      some { period := g.period, processId := g.processId, co2 := calcAnodeEmissions m }
    else none)

/-- The legacy PFC entries of one aggregation call (groups with
`aemMinutes > 0`). -/
def pfcEntriesOf (events : List ProcessEvent) (gwp : GwpSet) : List PfcEntry :=
  (eventGroups events).filterMap (fun g =>
    let m := mappedParams g
    if 0 < m.aemMinutes then
      let r := calcPFCEmissions m gwp
      some { period := g.period, processId := g.processId,
             cf4 := r.cf4, c2f6 := r.c2f6, co2e := r.co2e }
    else none)

/-- Per-entry combustion result row of the aggregate. -/
structure CombustionEntry where
  entryId : String
  processId : String
  period : String
  energyTJ : ℚ
  co2 : ℚ
  ch4 : ℚ
  n2o : ℚ
  co2e : ℚ
deriving DecidableEq

/-- Per-entry electricity result row of the aggregate. -/
structure ElectricityEntry where
  entryId : String
  processId : String
  period : String
  co2e : ℚ
deriving DecidableEq

/-- Per-block result row of the aggregate. -/
structure BlockEntry where
  blockId : String
  name : String
  period : String
  processId : String
  gas : String
  tonnes : ℚ
  co2e : ℚ
  error : Option String
deriving DecidableEq

/-- Input record of `calculateTotalEmissions` (destructured with defaults in
the source). -/
structure EmissionsInput where
  fuels : List FuelEntry := []
  electricity : List ElecEntry := []
  processEvents : List ProcessEvent := []
  emissionBlocks : List EmissionBlock := []
  gwp : GwpSet := GWP_AR6
deriving DecidableEq

structure CombustionSection where
  entries : List CombustionEntry
  totals : CombustionResult
deriving DecidableEq

structure ElectricityTotals where
  co2e : ℚ
deriving DecidableEq

structure ElectricitySection where
  entries : List ElectricityEntry
  totals : ElectricityTotals
deriving DecidableEq

structure AnodeSection where
  entries : List AnodeEntry
  totalCO2 : ℚ
deriving DecidableEq

structure PfcSection where
  entries : List PfcEntry
  totalCO2e : ℚ
deriving DecidableEq

structure BlocksSection where
  entries : List BlockEntry
  totalCO2e : ℚ
deriving DecidableEq

structure EmissionsSummary where
  directCO2e : ℚ
  indirectCO2e : ℚ
  totalCO2e : ℚ
  combustionCO2e : ℚ
  anodeCO2 : ℚ
  pfcCO2e : ℚ
  blocksCO2e : ℚ
  electricityCO2e : ℚ
deriving DecidableEq

structure EmissionsResult where
  combustion : CombustionSection
  electricity : ElectricitySection
  anode : AnodeSection
  pfc : PfcSection
  emissionBlocks : BlocksSection
  summary : EmissionsSummary
  gwpSet : GwpSet
deriving DecidableEq

/-- One mapped combustion result row. -/
def mkCombustionEntry (gwp : GwpSet) (e : FuelEntry) : CombustionEntry :=
  let r := calcCombustionEmissions e none gwp
  { entryId := e.id, processId := e.processId, period := e.period,
    energyTJ := r.energyTJ, co2 := r.co2, ch4 := r.ch4, n2o := r.n2o, co2e := r.co2e }

/-- One mapped block result row. -/
def mkBlockEntry (gwp : GwpSet) (b : EmissionBlock) : BlockEntry :=
  let r := calcEmissionBlock b gwp
  { blockId := b.id, name := b.name, period := b.period, processId := b.processId,
    gas := r.gas, tonnes := r.tonnes, co2e := r.co2e, error := r.error }

/-- `calculateTotalEmissions(data)` from emissionEngine.js. -/
def calculateTotalEmissions (data : EmissionsInput) : EmissionsResult :=
  let combustionResults := data.fuels.map (mkCombustionEntry data.gwp)
  let totalCombustion : CombustionResult :=
    { energyTJ := (combustionResults.map (fun r => r.energyTJ)).sum,
      co2 := (combustionResults.map (fun r => r.co2)).sum,
      ch4 := (combustionResults.map (fun r => r.ch4)).sum,
      n2o := (combustionResults.map (fun r => r.n2o)).sum,
      co2e := (combustionResults.map (fun r => r.co2e)).sum }
  let electricityResults := data.electricity.map (fun e =>
    { entryId := e.id, processId := e.processId, period := e.period,
      co2e := calcElectricityEmissions e : ElectricityEntry })
  let totalElectricity : ℚ := (electricityResults.map (fun r => r.co2e)).sum
  let anodeResults := anodeEntriesOf data.processEvents
  let totalAnodeCO2 : ℚ := (anodeResults.map (fun r => r.co2)).sum
  let pfcResults := pfcEntriesOf data.processEvents data.gwp
  let totalPFCCO2e : ℚ := (pfcResults.map (fun r => r.co2e)).sum
  let blockResults := data.emissionBlocks.map (mkBlockEntry data.gwp)
  let totalBlockCO2e : ℚ := (blockResults.map (fun r => r.co2e)).sum
  let useBlocks := 0 < data.emissionBlocks.length
  let processDirectCO2e := if useBlocks then totalBlockCO2e else totalAnodeCO2 + totalPFCCO2e
  let totalDirect := totalCombustion.co2e + processDirectCO2e
  let totalIndirect := totalElectricity
  let totalCO2e := totalDirect + totalIndirect
  { combustion := { entries := combustionResults, totals := totalCombustion },
    electricity := { entries := electricityResults, totals := { co2e := totalElectricity } },
    anode := { entries := anodeResults, totalCO2 := if useBlocks then 0 else totalAnodeCO2 },
    pfc := { entries := pfcResults, totalCO2e := if useBlocks then 0 else totalPFCCO2e },
    emissionBlocks := { entries := blockResults, totalCO2e := totalBlockCO2e },
    summary :=
      { directCO2e := totalDirect, indirectCO2e := totalIndirect, totalCO2e := totalCO2e,
        combustionCO2e := totalCombustion.co2e,
        anodeCO2 := if useBlocks then 0 else totalAnodeCO2,
        pfcCO2e := if useBlocks then 0 else totalPFCCO2e,
        blocksCO2e := totalBlockCO2e,
        electricityCO2e := totalElectricity },
    gwpSet := data.gwp }

-- ═══════════════════════════════════════════════════════════════
--  data/referenceData.js (simple fuel helper + CBAM CN code table)
-- ═══════════════════════════════════════════════════════════════

/-- A `FUEL_TYPES` row of referenceData.js (efCO2 here is t CO₂/TJ). -/
structure RefFuelType where
  id : String
  name : String
  ncv : ℚ
  efCO2 : ℚ
deriving DecidableEq

def FUEL_TYPES : List RefFuelType :=
  [ { id := "natural_gas", name := "Natural Gas", ncv := 48.0, efCO2 := 56.1 },
    { id := "diesel", name := "Diesel / Gas Oil", ncv := 43.0, efCO2 := 74.1 },
    { id := "hard_coal", name := "Hard Coal", ncv := 25.8, efCO2 := 94.6 },
    { id := "coke", name := "Coke", ncv := 28.2, efCO2 := 107.0 },
    { id := "lpg", name := "LPG", ncv := 47.3, efCO2 := 63.1 },
    { id := "fuel_oil", name := "Heavy Fuel Oil", ncv := 40.4, efCO2 := 77.4 },
    { id := "pet_coke", name := "Petroleum Coke", ncv := 32.5, efCO2 := 97.5 },
    { id := "biomass_wood", name := "Wood / Biomass", ncv := 15.6, efCO2 := 112.0 },
    { id := "other", name := "Other (custom)", ncv := 0, efCO2 := 0 } ]

/-- A fuel entry as consumed by referenceData's `calcFuelEmissions`. -/
structure RefFuelEntry where
  id : String := ""
  period : String := ""
  processId : String := ""
  fuelTypeId : String := ""
  quantity : ℚ := 0
  customNcv : ℚ := 0
  customEf : ℚ := 0
deriving DecidableEq

/-- Result `{co2, total}` of `calcFuelEmissions` (total = co2 for now). -/
structure RefFuelResult where
  co2 : ℚ
  total : ℚ
deriving DecidableEq

/-- `calcFuelEmissions(fuelEntry)` from referenceData.js. -/
def calcFuelEmissions (f : RefFuelEntry) : RefFuelResult :=
  let fuelType := FUEL_TYPES.find? (fun t => t.id == f.fuelTypeId)
  let co2 :=
    match fuelType with
    | none => f.quantity * f.customNcv * f.customEf / 1000
    | some t =>
      if t.id == "other" then f.quantity * f.customNcv * f.customEf / 1000
      else f.quantity * t.ncv * t.efCO2 / 1000
  { co2 := co2, total := co2 }

/-- `calcElecEmissions(elecEntry)` from referenceData.js. -/
def calcElecEmissions (e : ElecEntry) : ℚ :=
  e.mwh * e.ef

/-- A `CBAM_CN_CODES` row; `isComplex` marks goods using CBAM precursors. -/
structure CnCode where
  code : String
  name : String
  sector : String
  isComplex : Bool
deriving DecidableEq

def CBAM_CN_CODES : List CnCode :=
  [ { code := "2523 10 00", name := "Cement Clinker", sector := "Cement", isComplex := false },
    { code := "2523 21 00", name := "White Portland Cement", sector := "Cement", isComplex := true },
    { code := "2523 29 00", name := "Other Portland Cement", sector := "Cement", isComplex := true },
    { code := "2523 90 00", name := "Other Hydraulic Cements", sector := "Cement", isComplex := true },
    { code := "2601 12 00", name := "Iron Ore (agglomerated)", sector := "Iron & Steel", isComplex := false },
    { code := "7201", name := "Pig Iron", sector := "Iron & Steel", isComplex := false },
    { code := "7202 1", name := "Ferro-manganese", sector := "Iron & Steel", isComplex := false },
    { code := "7202 4", name := "Ferro-chromium", sector := "Iron & Steel", isComplex := false },
    { code := "7202 6", name := "Ferro-nickel", sector := "Iron & Steel", isComplex := false },
    { code := "7203", name := "DRI / Sponge Iron", sector := "Iron & Steel", isComplex := false },
    { code := "7206", name := "Iron (ingots etc.)", sector := "Iron & Steel", isComplex := true },
    { code := "7207", name := "Semi-finished Steel", sector := "Iron & Steel", isComplex := true },
    { code := "7208", name := "Hot-rolled Flat Products", sector := "Iron & Steel", isComplex := true },
    { code := "7209", name := "Cold-rolled Flat Products", sector := "Iron & Steel", isComplex := true },
    { code := "7210", name := "Coated Flat Products", sector := "Iron & Steel", isComplex := true },
    { code := "7211", name := "Flat Products < 600mm", sector := "Iron & Steel", isComplex := true },
    { code := "7213", name := "Hot-rolled Bars/Rods", sector := "Iron & Steel", isComplex := true },
    { code := "7214", name := "Other Bars/Rods", sector := "Iron & Steel", isComplex := true },
    { code := "7215", name := "Other Bars (cold-formed)", sector := "Iron & Steel", isComplex := true },
    { code := "7216", name := "Angles, Shapes, Sections", sector := "Iron & Steel", isComplex := true },
    { code := "7217", name := "Wire of Iron/Steel", sector := "Iron & Steel", isComplex := true },
    { code := "7218", name := "Stainless Steel Semi-finished", sector := "Iron & Steel", isComplex := true },
    { code := "7219", name := "Stainless Flat Products", sector := "Iron & Steel", isComplex := true },
    { code := "7220", name := "Stainless Flat < 600mm", sector := "Iron & Steel", isComplex := true },
    { code := "7221 00", name := "Stainless Bars (hot-rolled)", sector := "Iron & Steel", isComplex := true },
    { code := "7222", name := "Stainless Other Bars/Angles", sector := "Iron & Steel", isComplex := true },
    { code := "7223 00", name := "Stainless Wire", sector := "Iron & Steel", isComplex := true },
    { code := "7224", name := "Other Alloy Steel Semi-fin.", sector := "Iron & Steel", isComplex := true },
    { code := "7225", name := "Other Alloy Flat Products", sector := "Iron & Steel", isComplex := true },
    { code := "7226", name := "Other Alloy Flat < 600mm", sector := "Iron & Steel", isComplex := true },
    { code := "7228", name := "Other Alloy Bars/Rods/Wire", sector := "Iron & Steel", isComplex := true },
    { code := "7229", name := "Other Alloy Steel Wire", sector := "Iron & Steel", isComplex := true },
    { code := "7301", name := "Sheet Piling", sector := "Iron & Steel", isComplex := true },
    { code := "7302", name := "Railway Material", sector := "Iron & Steel", isComplex := true },
    { code := "7303 00", name := "Cast Iron Tubes", sector := "Iron & Steel", isComplex := true },
    { code := "7304", name := "Seamless Tubes/Pipes", sector := "Iron & Steel", isComplex := true },
    { code := "7305", name := "Other Tubes > 406mm", sector := "Iron & Steel", isComplex := true },
    { code := "7306", name := "Other Tubes/Pipes", sector := "Iron & Steel", isComplex := true },
    { code := "7307", name := "Tube Fittings", sector := "Iron & Steel", isComplex := true },
    { code := "7308", name := "Structures & Parts", sector := "Iron & Steel", isComplex := true },
    { code := "7309 00", name := "Reservoirs/Tanks > 300L", sector := "Iron & Steel", isComplex := true },
    { code := "7310", name := "Tanks/Drums < 300L", sector := "Iron & Steel", isComplex := true },
    { code := "7311 00", name := "Containers for Compressed Gas", sector := "Iron & Steel", isComplex := true },
    { code := "7318", name := "Screws, Bolts, Nuts", sector := "Iron & Steel", isComplex := true },
    { code := "7326", name := "Other Articles of Iron/Steel", sector := "Iron & Steel", isComplex := true },
    { code := "7601 10 00", name := "Unwrought Aluminium (primary)", sector := "Aluminium", isComplex := false },
    { code := "7601 20 00", name := "Unwrought Al Alloys", sector := "Aluminium", isComplex := true },
    { code := "7603", name := "Aluminium Powders/Flakes", sector := "Aluminium", isComplex := true },
    { code := "7604", name := "Aluminium Bars/Profiles", sector := "Aluminium", isComplex := true },
    { code := "7605", name := "Aluminium Wire", sector := "Aluminium", isComplex := true },
    { code := "7606", name := "Aluminium Plates/Sheets", sector := "Aluminium", isComplex := true },
    { code := "7607", name := "Aluminium Foil", sector := "Aluminium", isComplex := true },
    { code := "7608", name := "Aluminium Tubes/Pipes", sector := "Aluminium", isComplex := true },
    { code := "7609 00 00", name := "Aluminium Tube Fittings", sector := "Aluminium", isComplex := true },
    { code := "7616", name := "Other Articles of Aluminium", sector := "Aluminium", isComplex := true },
    { code := "2808 00 00", name := "Nitric Acid", sector := "Fertilisers", isComplex := false },
    { code := "2814", name := "Ammonia", sector := "Fertilisers", isComplex := false },
    { code := "2834 21 00", name := "Potassium Nitrate", sector := "Fertilisers", isComplex := true },
    { code := "3102", name := "Mineral Nitrogen Fertilisers", sector := "Fertilisers", isComplex := true },
    { code := "3105", name := "Mixed Fertilisers", sector := "Fertilisers", isComplex := true },
    { code := "2804 10 00", name := "Hydrogen", sector := "Hydrogen", isComplex := false },
    { code := "2716 00 00", name := "Electrical Energy", sector := "Electricity", isComplex := false } ]

/-- `getCnCodeInfo(code)` from referenceData.js. -/
def getCnCodeInfo (code : String) : Option CnCode :=
  CBAM_CN_CODES.find? (fun c => c.code == code)

-- ═══════════════════════════════════════════════════════════════
--  views/ResultsView.jsx — product carbon footprint (SEE) pipeline
-- ═══════════════════════════════════════════════════════════════

/-- A precursor row of a product (`{mass, see, sourceType}` after the
numeric coercions of the reducer). -/
structure Precursor where
  id : String := ""
  name : String := ""
  cnCode : String := ""
  mass : ℚ := 0
  see : ℚ := 0
  sourceType : String := "actual"
deriving DecidableEq

/-- A product record. -/
structure Product where
  id : String := ""
  name : String := ""
  quantity : ℚ := 0
  isResidue : Bool := false
  cnCode : String := ""
  precursors : List Precursor := []
deriving DecidableEq

/-- One row of `productResults` (the spread product fields other than `id`
are omitted; `share` is the source's `ratio` variable, renamed only in this
embedding).  The `ownDirect`/`ownIndirect`/`precursorEmissions`/
`totalAllocated` fields are the `Math.round`ed display values; `see`,
`seeDirect`, `seeIndirect` are computed from the raw allocations. -/
structure ProductRow where
  id : String
  isExcluded : Bool
  share : ℚ
  ownDirect : ℤ
  ownIndirect : ℤ
  precursorEmissions : ℤ
  totalAllocated : ℤ
  see : ℚ
  seeDirect : ℚ
  seeIndirect : ℚ
  cnInfo : Option CnCode
  isComplex : Bool
deriving DecidableEq

/-- The precursor roll-up `Σ precursor.mass × precursor.see`. -/
def precursorSum (p : Product) : ℚ :=
  (p.precursors.map (fun pc => pc.mass * pc.see)).sum

/-- The body of the `state.products.map` of `productResults`
(ResultsView.jsx lines 22–60). -/
def productRowFn (totalDirect totalIndirect totalMass : ℚ)
    (treatResidueAsWaste : Bool) (p : Product) : ProductRow :=
  let isExcluded := treatResidueAsWaste && p.isResidue
  let qty := p.quantity
  let share := if !isExcluded ∧ 0 < totalMass then qty / totalMass else 0
  let cnInfo := getCnCodeInfo p.cnCode
  let isComplex := match cnInfo with | some c => c.isComplex | none => false
  let ownDirect := totalDirect * share
  let ownIndirect := totalIndirect * share
  let precursorEmissions :=
    if isComplex && decide (0 < p.precursors.length) then precursorSum p else 0
  let totalAllocated := ownDirect + ownIndirect + precursorEmissions
  let see := if 0 < qty then totalAllocated / qty else 0
  let seeDirect := if 0 < qty then ownDirect / qty else 0
  let seeIndirect := if 0 < qty then ownIndirect / qty else 0
  { id := p.id, isExcluded := isExcluded, share := share,
    ownDirect := jsRound ownDirect, ownIndirect := jsRound ownIndirect,
    precursorEmissions := jsRound precursorEmissions,
    totalAllocated := jsRound totalAllocated,
    see := see, seeDirect := seeDirect, seeIndirect := seeIndirect,
    cnInfo := cnInfo, isComplex := isComplex }

/-- `totalDirect` of ResultsView: Σ `calcFuelEmissions(f).total`. -/
def totalDirectOfFuels (fuels : List RefFuelEntry) : ℚ :=
  (fuels.map (fun f => (calcFuelEmissions f).total)).sum

/-- `totalIndirect` of ResultsView: Σ `calcElecEmissions(e)`. -/
def totalIndirectOfElec (elec : List ElecEntry) : ℚ :=
  (elec.map calcElecEmissions).sum

/-- `validProducts`: residues are dropped when treated as waste. -/
def validProductsOf (products : List Product) (treatResidueAsWaste : Bool) : List Product :=
  products.filter (fun p => !treatResidueAsWaste || !p.isResidue)

/-- `totalMass`: Σ quantity over the valid products. -/
def totalMassOf (products : List Product) (treatResidueAsWaste : Bool) : ℚ :=
  ((validProductsOf products treatResidueAsWaste).map (fun p => p.quantity)).sum

/-- `productResults` of ResultsView.jsx. -/
def productResultsView (fuels : List RefFuelEntry) (elec : List ElecEntry)
    (products : List Product) (treatResidueAsWaste : Bool) : List ProductRow :=
  products.map
    (productRowFn (totalDirectOfFuels fuels) (totalIndirectOfElec elec)
      (totalMassOf products treatResidueAsWaste) treatResidueAsWaste)

-- ═══════════════════════════════════════════════════════════════
--  data/cbamReferenceData.js
-- ═══════════════════════════════════════════════════════════════

/-- A CBAM phase-in schedule row. -/
structure PhaseRow where
  year : ℤ
  freeAllocation : ℚ
  payableShare : ℚ
deriving DecidableEq

def CBAM_PHASE_IN : List PhaseRow :=
  [ { year := 2026, freeAllocation := 0.975, payableShare := 0.025 },
    { year := 2027, freeAllocation := 0.950, payableShare := 0.050 },
    { year := 2028, freeAllocation := 0.900, payableShare := 0.100 },
    { year := 2029, freeAllocation := 0.825, payableShare := 0.175 },
    { year := 2030, freeAllocation := 0.725, payableShare := 0.275 },
    { year := 2031, freeAllocation := 0.600, payableShare := 0.400 },
    { year := 2032, freeAllocation := 0.450, payableShare := 0.550 },
    { year := 2033, freeAllocation := 0.250, payableShare := 0.750 },
    { year := 2034, freeAllocation := 0.000, payableShare := 1.000 } ]

/-- A LOW/MID/HIGH price-scenario row (certificate and aluminium prices). -/
structure PriceRow where
  year : ℤ
  low : ℚ
  mid : ℚ
  high : ℚ
deriving DecidableEq

def CBAM_CERT_PRICE : List PriceRow :=
  [ { year := 2026, low := 74.4, mid := 93, high := 111.6 },
    { year := 2027, low := 76.0, mid := 95, high := 114.0 },
    { year := 2028, low := 78.4, mid := 98, high := 117.6 },
    { year := 2029, low := 80.8, mid := 101, high := 121.2 },
    { year := 2030, low := 84.0, mid := 105, high := 126.0 },
    { year := 2031, low := 88.0, mid := 110, high := 132.0 },
    { year := 2032, low := 92.0, mid := 115, high := 138.0 },
    { year := 2033, low := 96.0, mid := 120, high := 144.0 },
    { year := 2034, low := 100.0, mid := 125, high := 150.0 } ]

/-- A KZ ETS credit-scenario row. -/
structure KzRow where
  year : ℤ
  low : ℚ
  mid : ℚ
  high : ℚ
  quotaShare : ℚ
deriving DecidableEq

def KZ_ETS_PRICE : List KzRow :=
  [ { year := 2026, low := 1, mid := 5, high := 10, quotaShare := 0.0125 },
    { year := 2027, low := 1.5, mid := 5, high := 10, quotaShare := 0.025 },
    { year := 2028, low := 2, mid := 5, high := 10, quotaShare := 0.050 },
    { year := 2029, low := 2.5, mid := 7.5, high := 12.5, quotaShare := 0.100 },
    { year := 2030, low := 3, mid := 10, high := 15, quotaShare := 0.150 },
    { year := 2031, low := 4, mid := 12, high := 18, quotaShare := 0.200 },
    { year := 2032, low := 5, mid := 15, high := 20, quotaShare := 0.250 },
    { year := 2033, low := 6, mid := 18, high := 25, quotaShare := 0.300 },
    { year := 2034, low := 8, mid := 20, high := 30, quotaShare := 0.350 } ]

def AL_PRICE_FORECAST : List PriceRow :=
  [ { year := 2026, low := 2125, mid := 2500, high := 2875 },
    { year := 2027, low := 2200, mid := 2600, high := 3000 },
    { year := 2028, low := 2250, mid := 2650, high := 3050 },
    { year := 2029, low := 2300, mid := 2700, high := 3100 },
    { year := 2030, low := 2350, mid := 2800, high := 3250 },
    { year := 2031, low := 2400, mid := 2850, high := 3300 },
    { year := 2032, low := 2450, mid := 2900, high := 3350 },
    { year := 2033, low := 2500, mid := 2950, high := 3400 },
    { year := 2034, low := 2550, mid := 3000, high := 3450 } ]

/-- A Kazakhstan default-intensity entry (EU Reg. 2025/2621). -/
structure KzDefaultEntry where
  cnCode : String
  name : String
  direct : ℚ
  indirect : Option ℚ
  total : Option ℚ
  route : Option String
deriving DecidableEq

/-- `KZ_DEFAULT_VALUES`, sector by sector in object-key order. -/
def KZ_DEFAULT_VALUES : List (String × List KzDefaultEntry) :=
  [ ("Aluminium",
     [ { cnCode := "7601", name := "Unwrought aluminium", direct := 1.870, indirect := none, total := some 1.870, route := some "K" },
       { cnCode := "7603", name := "Al powders and flakes", direct := 1.990, indirect := none, total := some 1.990, route := some "K" },
       { cnCode := "7604 10 10", name := "Bars and rods", direct := 2.210, indirect := none, total := some 2.210, route := some "K" },
       { cnCode := "7604 10 90", name := "Profiles", direct := 2.230, indirect := none, total := some 2.230, route := some "K" },
       { cnCode := "7604 21 00", name := "Hollow profiles", direct := 2.230, indirect := none, total := some 2.230, route := some "K" },
       { cnCode := "7605", name := "Al wire", direct := 2.210, indirect := none, total := some 2.210, route := some "K" },
       { cnCode := "7606", name := "Al plates/sheets/strip", direct := 2.670, indirect := none, total := some 2.670, route := some "K" },
       { cnCode := "7607", name := "Al foil", direct := 2.670, indirect := none, total := some 2.670, route := some "K" },
       { cnCode := "7608", name := "Al tubes/pipes", direct := 2.230, indirect := none, total := some 2.230, route := some "K" },
       { cnCode := "7609 00 00", name := "Al tube/pipe fittings", direct := 2.230, indirect := none, total := some 2.230, route := some "K" },
       { cnCode := "7610", name := "Al structures", direct := 2.230, indirect := none, total := some 2.230, route := some "K" },
       { cnCode := "7611 00 00", name := "Al reservoirs (>300L)", direct := 2.670, indirect := none, total := some 2.670, route := some "K" },
       { cnCode := "7612", name := "Al containers (≤300L)", direct := 2.670, indirect := none, total := some 2.670, route := some "K" },
       { cnCode := "7613 00 00", name := "Al gas containers", direct := 2.670, indirect := none, total := some 2.670, route := some "K" },
       { cnCode := "7614", name := "Al stranded wire/cables", direct := 2.210, indirect := none, total := some 2.210, route := some "K" },
       { cnCode := "7616 10 00", name := "Al fasteners", direct := 2.670, indirect := none, total := some 2.670, route := some "K" },
       { cnCode := "7616 91 00", name := "Al cloth/grill/netting", direct := 2.670, indirect := none, total := some 2.670, route := some "K" },
       { cnCode := "7616 99 10", name := "Al cast articles", direct := 1.990, indirect := none, total := some 1.990, route := some "K" },
       { cnCode := "7616 99 90", name := "Al other articles", direct := 2.670, indirect := none, total := some 2.670, route := some "K" } ]),
    ("Cement",
     [ { cnCode := "2523 10 00", name := "Grey clinker", direct := 1.350, indirect := some 0.040, total := some 1.390, route := some "A" },
       { cnCode := "2523 29 00", name := "Grey Portland cement", direct := 1.350, indirect := some 0.070, total := some 1.420, route := none },
       { cnCode := "2523 90 00", name := "Grey hydraulic cements", direct := 1.280, indirect := some 0.070, total := some 1.350, route := some "A" } ]),
    ("Fertilisers",
     [ { cnCode := "2808 00 00", name := "Nitric acid", direct := 2.730, indirect := some 0.040, total := some 2.770, route := none },
       { cnCode := "2814 10 00", name := "Anhydrous ammonia", direct := 2.160, indirect := some 0.140, total := some 2.300, route := none },
       { cnCode := "2814 20 00", name := "Ammonia in aqueous solution", direct := 0.650, indirect := some 0.040, total := some 0.690, route := none },
       { cnCode := "3102 10 19", name := "Urea (>45% N)", direct := 1.470, indirect := some 0.110, total := some 1.580, route := none },
       { cnCode := "3102 30 90", name := "Ammonium nitrate", direct := 2.570, indirect := some 0.110, total := some 2.670, route := none },
       { cnCode := "3102 40 10", name := "AN/CaCO3 (≤28% N)", direct := 2.200, indirect := some 0.100, total := some 2.300, route := none },
       { cnCode := "3105 30 00", name := "DAP", direct := 0.510, indirect := some 0.060, total := some 0.570, route := none } ]),
    ("Iron & Steel",
     [ { cnCode := "2601 12 00", name := "Agglomerated iron ore", direct := 0.170, indirect := some 0.170, total := some 0.340, route := none },
       { cnCode := "7201", name := "Pig iron", direct := 4.960, indirect := none, total := some 4.960, route := none },
       { cnCode := "7202 11", name := "Ferro-Mn (>2% C)", direct := 1.690, indirect := none, total := some 1.690, route := none },
       { cnCode := "7202 41", name := "Ferro-Cr (>4% C)", direct := 2.350, indirect := none, total := some 2.350, route := none },
       { cnCode := "7206 10 00", name := "Iron/steel ingots", direct := 5.180, indirect := none, total := some 5.180, route := some "C" },
       { cnCode := "7207", name := "Semi-finished products", direct := 5.180, indirect := none, total := some 5.180, route := some "C" },
       { cnCode := "7208", name := "Flat-rolled (≥600mm, HR)", direct := 5.340, indirect := none, total := some 5.340, route := some "C" },
       { cnCode := "7209", name := "Flat-rolled (≥600mm, CR)", direct := 5.420, indirect := none, total := some 5.420, route := some "C" } ]),
    ("Hydrogen",
     [ { cnCode := "2804 10 00", name := "Hydrogen", direct := 10.820, indirect := none, total := some 10.820, route := none } ]) ]

/-- A markup-schedule row. -/
structure MarkupRow where
  year : ℤ
  rate : ℚ
deriving DecidableEq

def MARKUP_SCHEDULE_standard : List MarkupRow :=
  [ { year := 2026, rate := 0.10 }, { year := 2027, rate := 0.20 },
    { year := 2028, rate := 0.30 }, { year := 2029, rate := 0.30 },
    { year := 2030, rate := 0.30 }, { year := 2031, rate := 0.30 },
    { year := 2032, rate := 0.30 }, { year := 2033, rate := 0.30 },
    { year := 2034, rate := 0.30 } ]

def MARKUP_SCHEDULE_fertilisers : List MarkupRow :=
  [ { year := 2026, rate := 0.01 }, { year := 2027, rate := 0.01 },
    { year := 2028, rate := 0.01 }, { year := 2029, rate := 0.01 },
    { year := 2030, rate := 0.01 }, { year := 2031, rate := 0.01 },
    { year := 2032, rate := 0.01 }, { year := 2033, rate := 0.01 },
    { year := 2034, rate := 0.01 } ]

def SCOPE_RULES : List (String × String) :=
  [ ("Aluminium", "DIRECT_ONLY"), ("Cement", "TOTAL"), ("Fertilisers", "TOTAL"),
    ("Iron & Steel", "DIRECT_ONLY"), ("Hydrogen", "DIRECT_ONLY"),
    ("Electricity", "DIRECT_ONLY") ]

/-- `getMarkupSchedule(sector)`. -/
def getMarkupSchedule (sector : String) : List MarkupRow :=
  if sector == "Fertilisers" then MARKUP_SCHEDULE_fertilisers else MARKUP_SCHEDULE_standard

/-- `{...entry, sector}` as returned by `getKzDefault`. -/
structure KzDefaultHit where
  entry : KzDefaultEntry
  sector : String
deriving DecidableEq

/-- `getKzDefault(cnCode)`: first matching entry scanning sectors in key order. -/
def getKzDefault (cnCode : String) : Option KzDefaultHit :=
  (KZ_DEFAULT_VALUES.filterMap (fun s =>
    (s.snd.find? (fun v => v.cnCode == cnCode)).map (fun e =>
      { entry := e, sector := s.fst : KzDefaultHit }))).head?

/-- `getDefaultScope(sector)`: `SCOPE_RULES[sector] || 'TOTAL'`. -/
def getDefaultScope (sector : String) : String :=
  jsOrStr ((SCOPE_RULES.find? (fun p => p.fst == sector)).map Prod.snd) "TOTAL"

/-- Dynamic property access `row[key]` on a LOW/MID/HIGH price row. -/
def priceField (r : PriceRow) (k : String) : Option ℚ :=
  if k == "low" then some r.low
  else if k == "mid" then some r.mid
  else if k == "high" then some r.high
  else none

/-- Dynamic property access `row[key]` on a KZ ETS row. -/
def kzPriceField (r : KzRow) (k : String) : Option ℚ :=
  if k == "low" then some r.low
  else if k == "mid" then some r.mid
  else if k == "high" then some r.high
  else if k == "quotaShare" then some r.quotaShare
  else none

-- ═══════════════════════════════════════════════════════════════
--  engine/cbamCalculator.js
-- ═══════════════════════════════════════════════════════════════

/-- The CBAM projection configuration with the source's destructuring
defaults (`scope` has no default: it stays absent unless supplied). -/
structure CbamConfig where
  basis : String := "ACTUAL"
  scope : Option String := none
  certPriceScenario : String := "MID"
  alPriceScenario : String := "MID"
  carbonCreditEligible : Bool := true
  carbonCreditScenario : String := "HIGH"
  importedQty : ℚ := 0
  cnCode : String := ""
  goodCategory : String := "Aluminium"
  seeDirect : ℚ := 0
  seeIndirect : ℚ := 0
deriving DecidableEq

/-- One projection-table row; the fields rounded by the source
(`Math.round`, or round-to-3/2-decimals for intensity / per-tonne values)
carry the rounded values, exactly as returned. -/
structure ProjectionRow where
  year : ℤ
  importQty : ℚ
  markup : ℚ
  intensity : ℚ
  embeddedCO2 : ℤ
  payableShare : ℚ
  payableEmissions : ℤ
  certPrice : ℚ
  grossCost : ℤ
  kzEtsDeduction : ℤ
  netCost : ℤ
  costPerTonne : ℚ
  alPrice : ℚ
  costPctOfPrice : ℚ
deriving DecidableEq

/-- The markup rate for a year (`markupRow ? markupRow.rate : 0.30`). -/
def markupFor (markupSchedule : List MarkupRow) (year : ℤ) : ℚ :=
  match markupSchedule.find? (fun m => m.year == year) with
  | some m => m.rate
  | none => 0.30

/-- The emission intensity of one projection year (ACTUAL from the config's
SEE, DEFAULT from the KZ default entry with markup, 0 if no entry). -/
def rawIntensity (config : CbamConfig) (effectiveScope : String)
    (defaultEntry : Option KzDefaultHit) (markup : ℚ) : ℚ :=
  if config.basis == "ACTUAL" then
    if effectiveScope == "DIRECT_ONLY" then config.seeDirect
    else config.seeDirect + config.seeIndirect
  else
    match defaultEntry with
    | some hit =>
      let baseValue :=
        if effectiveScope == "DIRECT_ONLY" then hit.entry.direct
        else jsOrQ hit.entry.total hit.entry.direct
      baseValue * (1 + markup)
    | none => 0

/-- The certificate price for a year and scenario
(`certPriceRow[scenario.toLowerCase()] || certPriceRow.mid`, 0 if no row). -/
def certPriceFor (year : ℤ) (scenario : String) : ℚ :=
  match CBAM_CERT_PRICE.find? (fun r => r.year == year) with
  | some r => jsOrQ (priceField r scenario.toLower) r.mid
  | none => 0

/-- The raw (pre-rounding) KZ ETS deduction of one projection year:
0 unless credit-eligible with a scenario other than NONE and a KZ row for
the year; otherwise `min(certPrice, kzPrice) × embeddedCO2 × quotaShare`
against the *embedded* (not payable) emissions. -/
def kzDeductionRaw (config : CbamConfig) (year : ℤ) (certPrice embeddedCO2 : ℚ) : ℚ :=
  if config.carbonCreditEligible && (config.carbonCreditScenario != "NONE") then
    match KZ_ETS_PRICE.find? (fun r => r.year == year) with
    | some kzRow =>
      let kzPrice := jsOrQ (kzPriceField kzRow config.carbonCreditScenario.toLower) 0
      let effectiveKzPrice := min certPrice kzPrice
      effectiveKzPrice * embeddedCO2 * kzRow.quotaShare
    | none => 0
  else 0

/-- The aluminium reference price for a year and scenario. -/
def alPriceFor (year : ℤ) (scenario : String) : ℚ :=
  match AL_PRICE_FORECAST.find? (fun r => r.year == year) with
  | some r => jsOrQ (priceField r scenario.toLower) r.mid
  | none => 0

/-- The body of the `CBAM_PHASE_IN.map` of `calculateCBAMProjection`. -/
def projRow (config : CbamConfig) (effectiveScope : String)
    (markupSchedule : List MarkupRow) (defaultEntry : Option KzDefaultHit)
    (phaseIn : PhaseRow) : ProjectionRow :=
  let year := phaseIn.year
  let markup := markupFor markupSchedule year
  let intensity := rawIntensity config effectiveScope defaultEntry markup
  let embeddedCO2 := config.importedQty * intensity
  let payableEmissions := embeddedCO2 * phaseIn.payableShare
  let certPrice := certPriceFor year config.certPriceScenario
  let grossCost := payableEmissions * certPrice
  let kzEtsDeduction := kzDeductionRaw config year certPrice embeddedCO2
  let netCost := max 0 (grossCost - kzEtsDeduction)
  let costPerTonne := if 0 < config.importedQty then netCost / config.importedQty else 0
  let alPrice := alPriceFor year config.alPriceScenario
  let costPctOfPrice := if 0 < alPrice then costPerTonne / alPrice * 100 else 0
  { year := year, importQty := config.importedQty, markup := markup,
    intensity := (jsRound (intensity * 1000) : ℚ) / 1000,
    embeddedCO2 := jsRound embeddedCO2,
    payableShare := phaseIn.payableShare,
    payableEmissions := jsRound payableEmissions,
    certPrice := certPrice,
    grossCost := jsRound grossCost,
    kzEtsDeduction := jsRound kzEtsDeduction,
    netCost := jsRound netCost,
    costPerTonne := (jsRound (costPerTonne * 100) : ℚ) / 100,
    alPrice := alPrice,
    costPctOfPrice := (jsRound (costPctOfPrice * 100) : ℚ) / 100 }

structure ProjectionTotals where
  totalEmbeddedCO2 : ℤ
  totalPayableEmissions : ℤ
  totalGrossCost : ℤ
  totalKzEtsDeduction : ℤ
  totalNetCost : ℤ
deriving DecidableEq

structure ProjectionMeta where
  defaultEntry : Option KzDefaultHit
  effectiveScope : String
  goodCategory : String
deriving DecidableEq

structure Projection where
  rows : List ProjectionRow
  totals : ProjectionTotals
  metadata : ProjectionMeta
deriving DecidableEq

/-- `calculateCBAMProjection(config)` from cbamCalculator.js. -/
def calculateCBAMProjection (config : CbamConfig) : Projection :=
  let effectiveScope := jsOrStr config.scope (getDefaultScope config.goodCategory)
  let markupSchedule := getMarkupSchedule config.goodCategory
  let defaultEntry := getKzDefault config.cnCode
  let rows := CBAM_PHASE_IN.map (projRow config effectiveScope markupSchedule defaultEntry)
  { rows := rows,
    totals :=
      { totalEmbeddedCO2 := (rows.map (fun r => r.embeddedCO2)).sum,
        totalPayableEmissions := (rows.map (fun r => r.payableEmissions)).sum,
        totalGrossCost := (rows.map (fun r => r.grossCost)).sum,
        totalKzEtsDeduction := (rows.map (fun r => r.kzEtsDeduction)).sum,
        totalNetCost := (rows.map (fun r => r.netCost)).sum },
    metadata :=
      { defaultEntry := defaultEntry, effectiveScope := effectiveScope,
        goodCategory := config.goodCategory } }

/-- Scenario overrides as an all-optional record; `{...base, ...overrides}`
replaces exactly the present fields.  (Overriding `scope` back to absent is
not used by the source and not modelled.) -/
structure CbamOverrides where
  basis : Option String := none
  scope : Option String := none
  certPriceScenario : Option String := none
  alPriceScenario : Option String := none
  carbonCreditEligible : Option Bool := none
  carbonCreditScenario : Option String := none
  importedQty : Option ℚ := none
  cnCode : Option String := none
  goodCategory : Option String := none
  seeDirect : Option ℚ := none
  seeIndirect : Option ℚ := none
deriving DecidableEq

/-- The shallow merge `{...baseConfig, ...scenario.overrides}`. -/
def mergeConfig (base : CbamConfig) (ov : CbamOverrides) : CbamConfig :=
  { basis := ov.basis.getD base.basis,
    scope := match ov.scope with | some s => some s | none => base.scope,
    certPriceScenario := ov.certPriceScenario.getD base.certPriceScenario,
    alPriceScenario := ov.alPriceScenario.getD base.alPriceScenario,
    carbonCreditEligible := ov.carbonCreditEligible.getD base.carbonCreditEligible,
    carbonCreditScenario := ov.carbonCreditScenario.getD base.carbonCreditScenario,
    importedQty := ov.importedQty.getD base.importedQty,
    cnCode := ov.cnCode.getD base.cnCode,
    goodCategory := ov.goodCategory.getD base.goodCategory,
    seeDirect := ov.seeDirect.getD base.seeDirect,
    seeIndirect := ov.seeIndirect.getD base.seeIndirect }

structure ScenarioSpec where
  name : String
  label : String
  color : String
  overrides : CbamOverrides
deriving DecidableEq

structure ScenarioResult where
  name : String
  label : String
  color : String
  projection : Projection
deriving DecidableEq

/-- `compareScenarios(baseConfig, scenarios)`. -/
def compareScenarios (baseConfig : CbamConfig) (scenarios : List ScenarioSpec) :
    List ScenarioResult :=
  scenarios.map (fun s =>
    { name := s.name, label := s.label, color := s.color,
      projection := calculateCBAMProjection (mergeConfig baseConfig s.overrides) })

/-- `compareCertPriceScenarios(baseConfig)`: the LOW/MID/HIGH comparison. -/
def compareCertPriceScenarios (baseConfig : CbamConfig) : List ScenarioResult :=
  compareScenarios baseConfig
    [ { name := "low", label := "Low Carbon Price", color := "#22c55e",
        overrides := { certPriceScenario := some "LOW" } },
      { name := "mid", label := "Mid Carbon Price", color := "#f59e0b",
        overrides := { certPriceScenario := some "MID" } },
      { name := "high", label := "High Carbon Price", color := "#ef4444",
        overrides := { certPriceScenario := some "HIGH" } } ]

-- ═══════════════════════════════════════════════════════════════
--  Shared helper lemmas and fixtures
-- ═══════════════════════════════════════════════════════════════

/-- Zero rational rounds to zero. -/
lemma jsRound_zero : jsRound 0 = 0 := by norm_num [jsRound]

/-- `Math.round` is monotone. -/
lemma jsRound_mono {a b : ℚ} (h : a ≤ b) : jsRound a ≤ jsRound b :=
  Int.floor_mono (by linarith)

/-- An all-zero projection row used as the `getD` default. -/
def emptyProjectionRow : ProjectionRow :=
  { year := 0, importQty := 0, markup := 0, intensity := 0, embeddedCO2 := 0,
    payableShare := 0, payableEmissions := 0, certPrice := 0, grossCost := 0,
    kzEtsDeduction := 0, netCost := 0, costPerTonne := 0, alPrice := 0,
    costPctOfPrice := 0 }

/-- An empty scenario result used as the `getD` default. -/
def emptyScenarioResult : ScenarioResult :=
  { name := "", label := "", color := "",
    projection :=
      { rows := [],
        totals := { totalEmbeddedCO2 := 0, totalPayableEmissions := 0,
                    totalGrossCost := 0, totalKzEtsDeduction := 0, totalNetCost := 0 },
        metadata := { defaultEntry := none, effectiveScope := "", goodCategory := "" } } }

/-- The configuration of the spec's worked CBAM example: ACTUAL basis,
direct-only scope, SEE 1.87, 110000 t imported, MID certificate prices
(remaining fields keep the source's destructuring defaults). -/
def c5Config : CbamConfig :=
  { basis := "ACTUAL", scope := some "DIRECT_ONLY", certPriceScenario := "MID",
    importedQty := 110000, seeDirect := 1.87 }

-- ═══════════════════════════════════════════════════════════════
--  C6 — grammar order of unary minus and exponentiation
-- ═══════════════════════════════════════════════════════════════

/-- C6 counterexample: the claim says `evaluate("-2^2", {})` is −4, but the
code parses `unary` as the *base* of `power`, so the minus is applied before
the exponent and the result is `(-2)^2 = 4`. -/
theorem unary_minus_power_counterexample :
    evaluate "-2^2" [] = { value := some 4, error := none } ∧ (4 : ℚ) ≠ -4 := by
  with_unfolding_all decide

/-- C6 amended: `evaluate("-2^2", {})` returns 4 with no error — in the
`unary → power` grammar order the unary minus binds *tighter* than `^`,
since `power` negates its base before applying the exponent. -/
theorem unary_minus_power_amended :
    evaluate "-2^2" [] = { value := some 4, error := none } := by
  with_unfolding_all decide

-- ═══════════════════════════════════════════════════════════════
--  C5 — the 2026 row of the worked CBAM example
-- ═══════════════════════════════════════════════════════════════

/-- C5 counterexample: the 2026 row reports the `Math.round`ed values 5143 t
payable and 478253 € gross, not the claimed raw 5142.5 t and 478252.5 €. -/
theorem cbam_2026_example_counterexample :
    ((calculateCBAMProjection c5Config).rows.getD 0 emptyProjectionRow).payableEmissions = 5143
    ∧ (5143 : ℚ) ≠ 5142.5
    ∧ ((calculateCBAMProjection c5Config).rows.getD 0 emptyProjectionRow).grossCost = 478253
    ∧ (478253 : ℚ) ≠ 478252.5 := by
  refine ⟨by with_unfolding_all decide, by norm_num, by with_unfolding_all decide, by norm_num⟩

/-- C5 amended: for basis ACTUAL, scope DIRECT_ONLY, seeDirect 1.87,
importedQty 110000, certPriceScenario MID, the 2026 row reports embedded
emissions 205700 t, payable share 0.025, certificate price 93 €/t and
intensity 1.87; the raw payable emissions are 205700 × 0.025 = 5142.5 t and
the raw gross cost is 5142.5 × 93 = 478252.5 €, which the row reports
`Math.round`ed as 5143 t and 478253 €. -/
theorem cbam_2026_example_amended :
    ((calculateCBAMProjection c5Config).rows.getD 0 emptyProjectionRow).year = 2026
    ∧ ((calculateCBAMProjection c5Config).rows.getD 0 emptyProjectionRow).embeddedCO2 = 205700
    ∧ ((calculateCBAMProjection c5Config).rows.getD 0 emptyProjectionRow).payableShare = 0.025
    ∧ ((calculateCBAMProjection c5Config).rows.getD 0 emptyProjectionRow).certPrice = 93
    ∧ ((calculateCBAMProjection c5Config).rows.getD 0 emptyProjectionRow).intensity = 1.87
    ∧ (205700 : ℚ) * 0.025 = 5142.5
    ∧ jsRound 5142.5 = 5143
    ∧ ((calculateCBAMProjection c5Config).rows.getD 0 emptyProjectionRow).payableEmissions = 5143
    ∧ (5142.5 : ℚ) * 93 = 478252.5
    ∧ jsRound 478252.5 = 478253
    ∧ ((calculateCBAMProjection c5Config).rows.getD 0 emptyProjectionRow).grossCost = 478253 := by
  refine ⟨by with_unfolding_all decide, by with_unfolding_all decide,
    by with_unfolding_all decide, by with_unfolding_all decide,
    by with_unfolding_all decide, by norm_num, by norm_num [jsRound],
    by with_unfolding_all decide, by norm_num, by norm_num [jsRound],
    by with_unfolding_all decide⟩

-- ═══════════════════════════════════════════════════════════════
--  C2 — the KZ ETS deduction formula
-- ═══════════════════════════════════════════════════════════════

/-- C2 counterexample: with the demo configuration (credit-eligible, HIGH
credit scenario) the raw 2026 deduction is min(93, 10) × 205700 × 0.0125 =
25712.5 €, but the row reports the `Math.round`ed 25713 €, so the row's
deduction does not *equal* the product the claim states. -/
theorem cbam_deduction_rounding_counterexample :
    ((calculateCBAMProjection c5Config).rows.getD 0 emptyProjectionRow).kzEtsDeduction = 25713
    ∧ min (93 : ℚ) 10 * 205700 * 0.0125 = 25712.5
    ∧ (25713 : ℚ) ≠ 25712.5 := by
  refine ⟨by with_unfolding_all decide, by norm_num, by norm_num⟩

/-- C2 amended: in every projection row the *raw* deduction is 0 unless the
configuration is credit-eligible with a credit scenario other than NONE;
otherwise (when a KZ ETS row exists for the year) it equals
min(certificate price, credit price) × embedded emissions (not payable
emissions) × quota share; the row reports `Math.round` of that raw
deduction, and the row's net cost is `Math.round` of
max(0, raw gross − raw deduction). -/
theorem cbam_deduction_amended (config : CbamConfig) :
    ((calculateCBAMProjection config).rows
      = CBAM_PHASE_IN.map
          (projRow config (jsOrStr config.scope (getDefaultScope config.goodCategory))
            (getMarkupSchedule config.goodCategory) (getKzDefault config.cnCode)))
    ∧ ∀ (effectiveScope : String) (markupSchedule : List MarkupRow)
        (defaultEntry : Option KzDefaultHit) (phase : PhaseRow),
        ((config.carbonCreditEligible = false ∨ config.carbonCreditScenario = "NONE") →
          kzDeductionRaw config phase.year (certPriceFor phase.year config.certPriceScenario)
              (config.importedQty * rawIntensity config effectiveScope defaultEntry
                (markupFor markupSchedule phase.year)) = 0
          ∧ (projRow config effectiveScope markupSchedule defaultEntry phase).kzEtsDeduction = 0)
        ∧ (config.carbonCreditEligible = true → config.carbonCreditScenario ≠ "NONE" →
            ∀ kzRow : KzRow,
              KZ_ETS_PRICE.find? (fun r => r.year == phase.year) = some kzRow →
              kzDeductionRaw config phase.year
                  (certPriceFor phase.year config.certPriceScenario)
                  (config.importedQty * rawIntensity config effectiveScope defaultEntry
                    (markupFor markupSchedule phase.year))
                = min (certPriceFor phase.year config.certPriceScenario)
                    (jsOrQ (kzPriceField kzRow config.carbonCreditScenario.toLower) 0)
                  * (config.importedQty * rawIntensity config effectiveScope defaultEntry
                      (markupFor markupSchedule phase.year))
                  * kzRow.quotaShare)
        ∧ (projRow config effectiveScope markupSchedule defaultEntry phase).kzEtsDeduction
            = jsRound (kzDeductionRaw config phase.year
                (certPriceFor phase.year config.certPriceScenario)
                (config.importedQty * rawIntensity config effectiveScope defaultEntry
                  (markupFor markupSchedule phase.year)))
        ∧ (projRow config effectiveScope markupSchedule defaultEntry phase).netCost
            = jsRound (max 0
                ((config.importedQty * rawIntensity config effectiveScope defaultEntry
                    (markupFor markupSchedule phase.year))
                  * phase.payableShare
                  * certPriceFor phase.year config.certPriceScenario
                  - kzDeductionRaw config phase.year
                      (certPriceFor phase.year config.certPriceScenario)
                      (config.importedQty * rawIntensity config effectiveScope defaultEntry
                        (markupFor markupSchedule phase.year)))) := by
  refine ⟨rfl, ?_⟩
  intro effectiveScope markupSchedule defaultEntry phase
  refine ⟨?_, ?_, rfl, rfl⟩
  · intro h
    have hded : kzDeductionRaw config phase.year
        (certPriceFor phase.year config.certPriceScenario)
        (config.importedQty * rawIntensity config effectiveScope defaultEntry
          (markupFor markupSchedule phase.year)) = 0 := by
      rcases h with h | h
      · simp [kzDeductionRaw, h]
      · simp [kzDeductionRaw, h]
    refine ⟨hded, ?_⟩
    show jsRound (kzDeductionRaw config phase.year
        (certPriceFor phase.year config.certPriceScenario)
        (config.importedQty * rawIntensity config effectiveScope defaultEntry
          (markupFor markupSchedule phase.year))) = 0
    rw [hded, jsRound_zero]
  · intro h1 h2 kzRow hkz
    have hb : (config.carbonCreditEligible && (config.carbonCreditScenario != "NONE")) = true := by
      simp [h1, bne_iff_ne, h2]
    simp [kzDeductionRaw, hb, hkz]

-- ═══════════════════════════════════════════════════════════════
--  C9 — per-entry override semantics in calcCombustionEmissions
-- ═══════════════════════════════════════════════════════════════

/-- C9 counterexample: a per-entry NCV override of 0 is *not* used — the `||`
chain is truthiness-based, so the natural-gas default NCV 48 applies and the
energy is 1 × 48 / 1000 = 0.048 TJ rather than the 0 the claim requires. -/
theorem combustion_zero_override_counterexample :
    (calcCombustionEmissions
        { fuelTypeId := some "natural_gas", quantity := 1, custom_ncv := some 0 }
        none GWP_AR6).energyTJ = 48 / 1000
    ∧ (48 / 1000 : ℚ) ≠ 1 * 0 / 1000 := by
  refine ⟨by with_unfolding_all decide, by norm_num⟩

/-- C9 amended: a per-entry override replaces the fuel-type default only when
it is truthy (non-zero): a non-zero snake_case override wins for each of NCV
and the CO₂/CH₄/N₂O emission factors, while an override of 0 (or an absent
one) falls through to the camelCase spelling and then to the fuel-type
default. -/
theorem combustion_override_truthy_amended (entry : FuelEntry) (gwp : GwpSet) :
    (∀ v : ℚ, entry.custom_ncv = some v → v ≠ 0 →
      (calcCombustionEmissions entry none gwp).energyTJ = entry.quantity * v / 1000)
    ∧ (∀ v : ℚ, entry.custom_ef_co2 = some v → v ≠ 0 →
      (calcCombustionEmissions entry none gwp).co2
        = (calcCombustionEmissions entry none gwp).energyTJ * v / 1000)
    ∧ (∀ v : ℚ, entry.custom_ef_ch4 = some v → v ≠ 0 →
      (calcCombustionEmissions entry none gwp).ch4
        = (calcCombustionEmissions entry none gwp).energyTJ * v / 1000)
    ∧ (∀ v : ℚ, entry.custom_ef_n2o = some v → v ≠ 0 →
      (calcCombustionEmissions entry none gwp).n2o
        = (calcCombustionEmissions entry none gwp).energyTJ * v / 1000)
    ∧ (jsOrQ entry.custom_ncv (jsOrQ entry.customNcv 0) = 0 →
      (calcCombustionEmissions entry none gwp).energyTJ
        = entry.quantity * (fuelDefOf entry none).ncv / 1000) := by
  refine ⟨?_, ?_, ?_, ?_, ?_⟩
  · intro v hv hv0
    simp [calcCombustionEmissions, jsOrQ, hv, hv0]
  · intro v hv hv0
    simp [calcCombustionEmissions, jsOrQ, hv, hv0]
  · intro v hv hv0
    simp [calcCombustionEmissions, jsOrQ, hv, hv0]
  · intro v hv hv0
    simp [calcCombustionEmissions, jsOrQ, hv, hv0]
  · intro h
    rcases hsnake : entry.custom_ncv with _ | v
    · rcases hcamel : entry.customNcv with _ | w
      · simp [calcCombustionEmissions, jsOrQ, hsnake, hcamel]
      · rcases hw : decide (w = 0) with _ | _
        · have hw' : ¬ w = 0 := of_decide_eq_false hw
          rw [hsnake, hcamel] at h
          simp [jsOrQ, hw'] at h
        · have hw' : w = 0 := of_decide_eq_true hw
          simp [calcCombustionEmissions, jsOrQ, hsnake, hcamel, hw']
    · rcases hv : decide (v = 0) with _ | _
      · have hv' : ¬ v = 0 := of_decide_eq_false hv
        rw [hsnake] at h
        simp [jsOrQ, hv'] at h
      · have hv' : v = 0 := of_decide_eq_true hv
        rcases hcamel : entry.customNcv with _ | w
        · simp [calcCombustionEmissions, jsOrQ, hsnake, hcamel, hv']
        · rcases hw : decide (w = 0) with _ | _
          · have hw' : ¬ w = 0 := of_decide_eq_false hw
            rw [hsnake, hcamel] at h
            simp [jsOrQ, hv', hw'] at h
          · have hw' : w = 0 := of_decide_eq_true hw
            simp [calcCombustionEmissions, jsOrQ, hsnake, hcamel, hv', hw']

/-- C9 witness: concrete instantiation of the amended override semantics. -/
theorem combustion_override_truthy_witness :
    (calcCombustionEmissions
        { fuelTypeId := some "natural_gas", quantity := 3,
          custom_ncv := some 50, custom_ef_co2 := some 2 } none GWP_AR6).energyTJ
      = ({ fuelTypeId := some "natural_gas", quantity := 3,
           custom_ncv := some 50, custom_ef_co2 := some 2 } : FuelEntry).quantity * 50 / 1000
    ∧ (calcCombustionEmissions
        { fuelTypeId := some "natural_gas", quantity := 3,
          custom_ncv := some 50, custom_ef_co2 := some 2 } none GWP_AR6).co2
      = (calcCombustionEmissions
          { fuelTypeId := some "natural_gas", quantity := 3,
            custom_ncv := some 50, custom_ef_co2 := some 2 } none GWP_AR6).energyTJ * 2 / 1000 :=
  ⟨(combustion_override_truthy_amended _ GWP_AR6).1 50 rfl (by norm_num),
   (combustion_override_truthy_amended _ GWP_AR6).2.1 2 rfl (by norm_num)⟩

-- ═══════════════════════════════════════════════════════════════
--  C10 — silent fallback to the `custom` fuel definition
-- ═══════════════════════════════════════════════════════════════

set_option maxRecDepth 2000 in
/-- C10 counterexample: an entry whose fuel-type id is unknown *can* still
contribute non-zero emissions — the fallback only swaps in the all-zero
`custom` definition, and truthy per-entry overrides then apply on top, so
the claim's "contributes exactly 0" is not universal. -/
theorem unknown_fuel_fallback_counterexample :
    lookupFuelDef "mystery_fuel" = none
    ∧ (calcCombustionEmissions
        { fuelTypeId := some "mystery_fuel", quantity := 1,
          custom_ncv := some 1, custom_ef_co2 := some 1000 } none GWP_AR6).co2 = 1 / 1000
    ∧ (1 / 1000 : ℚ) ≠ 0 := by
  refine ⟨by with_unfolding_all decide, by with_unfolding_all decide, by norm_num⟩

/-- C10 amended: when the fuel-type identifier has no entry in the default
factor table (and no explicit factors argument is supplied), the `custom`
definition with NCV 0 and all emission factors 0 is used silently, and the
result is indistinguishable from the same entry declared with fuel type
`custom`; if additionally the entry carries no truthy per-entry overrides,
it contributes exactly 0 energy, 0 mass for each gas and 0 CO₂e. -/
theorem unknown_fuel_fallback_amended (entry : FuelEntry) (gwp : GwpSet)
    (hmiss : (jsOrRaw entry.fuel_type_id entry.fuelTypeId).bind lookupFuelDef = none) :
    fuelDefOf entry none = customFuelDef
    ∧ calcCombustionEmissions entry none gwp
        = calcCombustionEmissions
            { entry with fuel_type_id := none, fuelTypeId := some "custom" } none gwp
    ∧ (jsOrQ entry.custom_ncv (jsOrQ entry.customNcv 0) = 0 →
       jsOrQ entry.custom_ef_co2 (jsOrQ entry.customEfCo2 0) = 0 →
       jsOrQ entry.custom_ef_ch4 (jsOrQ entry.customEfCh4 0) = 0 →
       jsOrQ entry.custom_ef_n2o (jsOrQ entry.customEfN2o 0) = 0 →
       calcCombustionEmissions entry none gwp
         = { energyTJ := 0, co2 := 0, ch4 := 0, n2o := 0, co2e := 0 }) := by
  have hdef : fuelDefOf entry none = customFuelDef := by
    unfold fuelDefOf
    rw [hmiss]
    rfl
  have hcustom : fuelDefOf
      { entry with fuel_type_id := none, fuelTypeId := some "custom" } none = customFuelDef := by
    with_unfolding_all rfl
  refine ⟨hdef, ?_, ?_⟩
  · unfold calcCombustionEmissions
    rw [hdef, hcustom]
  · intro h1 h2 h3 h4
    have z1 : jsOrQ entry.custom_ncv (jsOrQ entry.customNcv customFuelDef.ncv) = 0 := by
      simpa [customFuelDef] using h1
    have z2 : jsOrQ entry.custom_ef_co2 (jsOrQ entry.customEfCo2 customFuelDef.efCO2) = 0 := by
      simpa [customFuelDef] using h2
    have z3 : jsOrQ entry.custom_ef_ch4 (jsOrQ entry.customEfCh4 customFuelDef.efCH4) = 0 := by
      simpa [customFuelDef] using h3
    have z4 : jsOrQ entry.custom_ef_n2o (jsOrQ entry.customEfN2o customFuelDef.efN2O) = 0 := by
      simpa [customFuelDef] using h4
    simp only [calcCombustionEmissions, hdef, z1, z2, z3, z4]
    simp

/-- C10 witness: a concrete unknown fuel-type entry without overrides
contributes exactly zero through the silent `custom` fallback. -/
theorem unknown_fuel_fallback_witness :
    fuelDefOf { fuelTypeId := some "no_such_fuel", quantity := 7 } none = customFuelDef
    ∧ calcCombustionEmissions { fuelTypeId := some "no_such_fuel", quantity := 7 } none GWP_AR6
        = calcCombustionEmissions
            { ({ fuelTypeId := some "no_such_fuel", quantity := 7 } : FuelEntry) with
              fuel_type_id := none, fuelTypeId := some "custom" } none GWP_AR6
    ∧ calcCombustionEmissions { fuelTypeId := some "no_such_fuel", quantity := 7 } none GWP_AR6
        = { energyTJ := 0, co2 := 0, ch4 := 0, n2o := 0, co2e := 0 } := by
  have h := unknown_fuel_fallback_amended
    { fuelTypeId := some "no_such_fuel", quantity := 7 } GWP_AR6 (by with_unfolding_all decide)
  exact ⟨h.1, h.2.1,
    h.2.2 (by with_unfolding_all decide) (by with_unfolding_all decide)
      (by with_unfolding_all decide) (by with_unfolding_all decide)⟩

-- ═══════════════════════════════════════════════════════════════
--  C1 — emission blocks supersede the legacy anode+PFC totals
-- ═══════════════════════════════════════════════════════════════

/-- C1: in one aggregation call, if any generic emission block is present
the process-direct subtotal is the sum of the blocks' CO₂e and the legacy
anode/PFC contributions to the summary are zeroed (their per-entry results
are still computed and returned unchanged); with no blocks, the subtotal is
the legacy anode CO₂ plus PFC CO₂e — a binary switch per call. -/
theorem blocks_supersede_legacy (data : EmissionsInput) :
    (data.emissionBlocks ≠ [] →
      (calculateTotalEmissions data).summary.directCO2e
        = (calculateTotalEmissions data).summary.combustionCO2e
          + (data.emissionBlocks.map (fun b => (calcEmissionBlock b data.gwp).co2e)).sum
      ∧ (calculateTotalEmissions data).summary.anodeCO2 = 0
      ∧ (calculateTotalEmissions data).summary.pfcCO2e = 0
      ∧ (calculateTotalEmissions data).anode.totalCO2 = 0
      ∧ (calculateTotalEmissions data).pfc.totalCO2e = 0
      ∧ (calculateTotalEmissions data).anode.entries = anodeEntriesOf data.processEvents
      ∧ (calculateTotalEmissions data).pfc.entries = pfcEntriesOf data.processEvents data.gwp)
    ∧ (data.emissionBlocks = [] →
      (calculateTotalEmissions data).summary.directCO2e
        = (calculateTotalEmissions data).summary.combustionCO2e
          + (calculateTotalEmissions data).summary.anodeCO2
          + (calculateTotalEmissions data).summary.pfcCO2e
      ∧ (calculateTotalEmissions data).summary.anodeCO2
          = ((anodeEntriesOf data.processEvents).map (fun r => r.co2)).sum
      ∧ (calculateTotalEmissions data).summary.pfcCO2e
          = ((pfcEntriesOf data.processEvents data.gwp).map (fun r => r.co2e)).sum) := by
  constructor
  · intro h
    have hlen : 0 < data.emissionBlocks.length := List.length_pos.mpr h
    refine ⟨?_, ?_, ?_, ?_, ?_, rfl, rfl⟩ <;>
      (simp [calculateTotalEmissions, hlen, mkBlockEntry, List.map_map, Function.comp]) <;>
      rfl
  · intro h
    refine ⟨?_, ?_, ?_⟩ <;>
      simp [calculateTotalEmissions, h] <;> ring

/-- C1 witness: a call with one emission block zeroes the summary's legacy
fields while still returning the anode entry computed from the events. -/
theorem blocks_supersede_legacy_witness :
    (calculateTotalEmissions
        { processEvents :=
            [ { period := "2024-01", processId := some "P01", parameter := "metal_production", value := 1000 },
              { period := "2024-01", processId := some "P01", parameter := "net_anode_consumption", value := 420 },
              { period := "2024-01", processId := some "P01", parameter := "anode_carbon_fraction", value := 0.9 } ],
          emissionBlocks :=
            [ { id := "eb1", formula := "a * 2", outputGas := some "CH4",
                parameters := [{ key := "a", value := some 5 }] } ] }).summary.directCO2e
      = (calculateTotalEmissions
          { processEvents :=
              [ { period := "2024-01", processId := some "P01", parameter := "metal_production", value := 1000 },
                { period := "2024-01", processId := some "P01", parameter := "net_anode_consumption", value := 420 },
                { period := "2024-01", processId := some "P01", parameter := "anode_carbon_fraction", value := 0.9 } ],
            emissionBlocks :=
              [ { id := "eb1", formula := "a * 2", outputGas := some "CH4",
                  parameters := [{ key := "a", value := some 5 }] } ] }).summary.combustionCO2e
        + (([ { id := "eb1", formula := "a * 2", outputGas := some "CH4",
                parameters := [{ key := "a", value := some 5 }] } ] : List EmissionBlock).map
            (fun b => (calcEmissionBlock b GWP_AR6).co2e)).sum
    ∧ (calculateTotalEmissions
        { processEvents :=
            [ { period := "2024-01", processId := some "P01", parameter := "metal_production", value := 1000 },
              { period := "2024-01", processId := some "P01", parameter := "net_anode_consumption", value := 420 },
              { period := "2024-01", processId := some "P01", parameter := "anode_carbon_fraction", value := 0.9 } ],
          emissionBlocks :=
            [ { id := "eb1", formula := "a * 2", outputGas := some "CH4",
                parameters := [{ key := "a", value := some 5 }] } ] }).summary.anodeCO2 = 0
    ∧ (calculateTotalEmissions
        { processEvents :=
            [ { period := "2024-01", processId := some "P01", parameter := "metal_production", value := 1000 },
              { period := "2024-01", processId := some "P01", parameter := "net_anode_consumption", value := 420 },
              { period := "2024-01", processId := some "P01", parameter := "anode_carbon_fraction", value := 0.9 } ],
          emissionBlocks :=
            [ { id := "eb1", formula := "a * 2", outputGas := some "CH4",
                parameters := [{ key := "a", value := some 5 }] } ] }).anode.entries
      = anodeEntriesOf
          [ { period := "2024-01", processId := some "P01", parameter := "metal_production", value := 1000 },
            { period := "2024-01", processId := some "P01", parameter := "net_anode_consumption", value := 420 },
            { period := "2024-01", processId := some "P01", parameter := "anode_carbon_fraction", value := 0.9 } ] := by
  have h := (blocks_supersede_legacy
    { processEvents :=
        [ { period := "2024-01", processId := some "P01", parameter := "metal_production", value := 1000 },
          { period := "2024-01", processId := some "P01", parameter := "net_anode_consumption", value := 420 },
          { period := "2024-01", processId := some "P01", parameter := "anode_carbon_fraction", value := 0.9 } ],
      emissionBlocks :=
        [ { id := "eb1", formula := "a * 2", outputGas := some "CH4",
            parameters := [{ key := "a", value := some 5 }] } ] }).1 (List.cons_ne_nil _ _)
  exact ⟨h.1, h.2.1, h.2.2.2.2.2.1⟩

-- ═══════════════════════════════════════════════════════════════
--  C8 — formula errors are localized to their block
-- ═══════════════════════════════════════════════════════════════

/-- C8: a block whose formula fails to evaluate yields 0 tonnes and 0 CO₂e
with the error string in its own result entry, while the block total (and
hence the direct-emissions summary) is still the sum over *all* blocks —
aggregation is never aborted by a single block's error. -/
theorem block_error_localized (data : EmissionsInput) (b : EmissionBlock)
    (hb : b ∈ data.emissionBlocks) :
    ((evaluate b.formula (blockVariables b)).error.isSome →
      (calcEmissionBlock b data.gwp).tonnes = 0
      ∧ (calcEmissionBlock b data.gwp).co2e = 0
      ∧ (calcEmissionBlock b data.gwp).error = (evaluate b.formula (blockVariables b)).error)
    ∧ (calculateTotalEmissions data).emissionBlocks.totalCO2e
        = (data.emissionBlocks.map (fun x => (calcEmissionBlock x data.gwp).co2e)).sum
    ∧ (calculateTotalEmissions data).emissionBlocks.entries
        = data.emissionBlocks.map (mkBlockEntry data.gwp)
    ∧ (mkBlockEntry data.gwp b).error = (calcEmissionBlock b data.gwp).error
    ∧ (data.emissionBlocks ≠ [] →
        (calculateTotalEmissions data).summary.directCO2e
          = (calculateTotalEmissions data).summary.combustionCO2e
            + (data.emissionBlocks.map (fun x => (calcEmissionBlock x data.gwp).co2e)).sum) := by
  refine ⟨?_, ?_, rfl, rfl, ?_⟩
  · intro herr
    by_cases hempty : emptyOrBlank b.formula
    · simp [evaluate, hempty] at herr
    · obtain ⟨e, he⟩ := Option.isSome_iff_exists.mp herr
      simp [calcEmissionBlock, hempty, he]
  · simp only [calculateTotalEmissions, List.map_map]
    rfl
  · intro h
    have hlen : 0 < data.emissionBlocks.length := List.length_pos.mpr h
    simp [calculateTotalEmissions, hlen, mkBlockEntry, List.map_map, Function.comp]
    rfl

/-- C8 witness: one erroring block (dangling operator) plus one healthy
sibling; the erroring block is zeroed and the total still counts the
sibling. -/
theorem block_error_localized_witness :
    (calcEmissionBlock { id := "b1", formula := "x +" } GWP_AR6).tonnes = 0
    ∧ (calcEmissionBlock { id := "b1", formula := "x +" } GWP_AR6).co2e = 0
    ∧ (calcEmissionBlock { id := "b1", formula := "x +" } GWP_AR6).error
        = (evaluate ({ id := "b1", formula := "x +" : EmissionBlock }).formula
            (blockVariables { id := "b1", formula := "x +" })).error := by
  have h := (block_error_localized
    { emissionBlocks := [ { id := "b1", formula := "x +" },
                          { id := "b2", formula := "2 * 3" } ] }
    { id := "b1", formula := "x +" } (List.mem_cons_self _ _)).1
    (by with_unfolding_all decide)
  exact h

-- ═══════════════════════════════════════════════════════════════
--  C4 — complex-product precursor roll-up in the PCF pipeline
-- ═══════════════════════════════════════════════════════════════

/-- C4: for a complex product, the precursor contribution
Σ (mass × SEE) is added on top of the product's own allocated total without
being scaled by the allocation share; SEE = (allocatedDirect +
allocatedIndirect + precursorSum) / quantity with 0 on zero quantity; the
separate SEE-direct / SEE-indirect values exclude the precursor sum. -/
theorem pcf_precursor_rollup :
    (∀ (fuels : List RefFuelEntry) (elec : List ElecEntry)
        (products : List Product) (trw : Bool),
      productResultsView fuels elec products trw
        = products.map
            (productRowFn (totalDirectOfFuels fuels) (totalIndirectOfElec elec)
              (totalMassOf products trw) trw))
    ∧ ∀ (totalDirect totalIndirect totalMass : ℚ) (trw : Bool) (p : Product),
        (productRowFn totalDirect totalIndirect totalMass trw p).isComplex = true →
        ((productRowFn totalDirect totalIndirect totalMass trw p).see
            = (if 0 < p.quantity then
                (totalDirect * (productRowFn totalDirect totalIndirect totalMass trw p).share
                  + totalIndirect * (productRowFn totalDirect totalIndirect totalMass trw p).share
                  + (if 0 < p.precursors.length then precursorSum p else 0)) / p.quantity
              else 0)
          ∧ (productRowFn totalDirect totalIndirect totalMass trw p).seeDirect
            = (if 0 < p.quantity then
                totalDirect * (productRowFn totalDirect totalIndirect totalMass trw p).share / p.quantity
              else 0)
          ∧ (productRowFn totalDirect totalIndirect totalMass trw p).seeIndirect
            = (if 0 < p.quantity then
                totalIndirect * (productRowFn totalDirect totalIndirect totalMass trw p).share / p.quantity
              else 0)
          ∧ (productRowFn totalDirect totalIndirect totalMass trw p).totalAllocated
            = jsRound
                (totalDirect * (productRowFn totalDirect totalIndirect totalMass trw p).share
                  + totalIndirect * (productRowFn totalDirect totalIndirect totalMass trw p).share
                  + (if 0 < p.precursors.length then precursorSum p else 0))) := by
  refine ⟨fun _ _ _ _ => rfl, ?_⟩
  intro totalDirect totalIndirect totalMass trw p hcx
  have hcx' : (match getCnCodeInfo p.cnCode with
      | some c => c.isComplex
      | none => false) = true := hcx
  refine ⟨?_, rfl, rfl, ?_⟩ <;>
    simp [productRowFn, hcx']

/-- The complex-product fixture of the C4 witness: an aluminium-sheet
product (CN 7606, complex) with one precursor of 2 t/t at SEE 3. -/
def c4Product : Product :=
  { id := "p1", quantity := 10, cnCode := "7606",
    precursors := [ { mass := 2, see := 3 } ] }

/-- C4 witness: the fixture product rolls the full precursor contribution
into its SEE on top of the allocated emissions, unscaled by its share. -/
theorem pcf_precursor_rollup_witness :
    (productRowFn 100 40 20 true c4Product).see
      = (if 0 < c4Product.quantity then
          (100 * (productRowFn 100 40 20 true c4Product).share
            + 40 * (productRowFn 100 40 20 true c4Product).share
            + (if 0 < c4Product.precursors.length then precursorSum c4Product else 0))
            / c4Product.quantity
        else 0) :=
  (pcf_precursor_rollup.2 100 40 20 true c4Product (by with_unfolding_all decide)).1

-- ═══════════════════════════════════════════════════════════════
--  C3 — net cost is monotone across the LOW/MID/HIGH price scenarios
-- ═══════════════════════════════════════════════════════════════

/-- `getD` of a mapped list at an in-range index. -/
lemma getD_map_of_lt {α β : Type _} (f : α → β) (d : β) (da : α) :
    ∀ (l : List α) (i : ℕ), i < l.length → (l.map f).getD i d = f (l.getD i da)
  | _ :: _, 0, _ => by simp
  | a :: l, i + 1, h => by
    simpa using getD_map_of_lt f d da l i (by simpa using h)
  | [], i, h => by simp at h

/-- `getD` at an in-range index is a member. -/
lemma getD_mem_of_lt {α : Type _} (d : α) :
    ∀ (l : List α) (i : ℕ), i < l.length → l.getD i d ∈ l
  | _ :: _, 0, _ => by simp
  | a :: l, i + 1, h => by
    simpa using Or.inr (getD_mem_of_lt d l i (by simpa using h))
  | [], i, h => by simp at h

/-- A step of the min function grows by at most the step of its argument. -/
lemma min_sub_min_le (c1 c2 K : ℚ) (h : c1 ≤ c2) : min c2 K - min c1 K ≤ c2 - c1 := by
  rcases le_total c2 K with h2 | h2
  · rw [min_eq_left h2, min_eq_left (le_trans h h2)]
  · rcases le_total c1 K with h1 | h1
    · rw [min_eq_right h2, min_eq_left h1]
      linarith
    · rw [min_eq_right h2, min_eq_right h1]
      linarith

/-- Clamped net cost without a deduction is monotone in the certificate
price. -/
lemma net_mono_noded (E p c1 c2 : ℚ) (hc1 : 0 ≤ c1) (h12 : c1 ≤ c2) (hp : 0 ≤ p) :
    max 0 (E * p * c1) ≤ max 0 (E * p * c2) := by
  rcases le_or_lt 0 E with hE | hE
  · exact max_le_max le_rfl
      (by nlinarith [mul_le_mul_of_nonneg_left h12 (mul_nonneg hE hp)])
  · have h1 : E * p * c1 ≤ 0 := by nlinarith [mul_nonneg hp hc1]
    rw [max_eq_left h1]
    exact le_max_left _ _

/-- Clamped net cost with the min-price deduction is monotone in the
certificate price whenever the quota share does not exceed the payable
share. -/
lemma net_mono_ded (E K p q c1 c2 : ℚ) (hc1 : 0 ≤ c1) (h12 : c1 ≤ c2) (hp : 0 ≤ p)
    (hq : 0 ≤ q) (hqp : q ≤ p) :
    max 0 (E * p * c1 - min c1 K * E * q) ≤ max 0 (E * p * c2 - min c2 K * E * q) := by
  rcases le_or_lt 0 E with hE | hE
  · apply max_le_max le_rfl
    have hΔ : (0 : ℚ) ≤ c2 - c1 := by linarith
    have hmle : min c2 K - min c1 K ≤ c2 - c1 := min_sub_min_le c1 c2 K h12
    have t1 : (min c2 K - min c1 K) * q ≤ (c2 - c1) * q :=
      mul_le_mul_of_nonneg_right hmle hq
    have t2 : (c2 - c1) * q ≤ (c2 - c1) * p := mul_le_mul_of_nonneg_left hqp hΔ
    nlinarith [mul_le_mul_of_nonneg_left (t1.trans t2) hE]
  · have hmin : min c1 K ≤ c1 := min_le_left _ _
    have hf : 0 ≤ p * c1 - min c1 K * q := by
      nlinarith [mul_le_mul_of_nonneg_right hmin hq, mul_le_mul_of_nonneg_left hqp hc1]
    have h1 : E * p * c1 - min c1 K * E * q ≤ 0 := by nlinarith
    rw [max_eq_left h1]
    exact le_max_left _ _

/-- The reference-table side conditions the monotonicity argument needs,
checked over all nine phase-in years. -/
def c3TableCheck : Bool :=
  CBAM_PHASE_IN.all (fun phase =>
    match KZ_ETS_PRICE.find? (fun r => r.year == phase.year) with
    | some kzRow =>
      decide (0 ≤ phase.payableShare) && decide (0 ≤ kzRow.quotaShare)
        && decide (kzRow.quotaShare ≤ phase.payableShare)
        && decide (0 ≤ certPriceFor phase.year "LOW")
        && decide (certPriceFor phase.year "LOW" ≤ certPriceFor phase.year "MID")
        && decide (certPriceFor phase.year "MID" ≤ certPriceFor phase.year "HIGH")
    | none => false)

set_option maxRecDepth 4000 in
lemma c3TableCheck_true : c3TableCheck = true := by with_unfolding_all decide

/-- Extraction of the table facts for one phase-in row. -/
lemma c3Table_spec (phase : PhaseRow) (hmem : phase ∈ CBAM_PHASE_IN) :
    ∃ kzRow, KZ_ETS_PRICE.find? (fun r => r.year == phase.year) = some kzRow
      ∧ 0 ≤ phase.payableShare ∧ 0 ≤ kzRow.quotaShare
      ∧ kzRow.quotaShare ≤ phase.payableShare
      ∧ 0 ≤ certPriceFor phase.year "LOW"
      ∧ certPriceFor phase.year "LOW" ≤ certPriceFor phase.year "MID"
      ∧ certPriceFor phase.year "MID" ≤ certPriceFor phase.year "HIGH" := by
  have h := List.all_eq_true.mp c3TableCheck_true phase hmem
  rcases hkz : KZ_ETS_PRICE.find? (fun r => r.year == phase.year) with _ | kzRow
  · rw [hkz] at h
    simp at h
  · rw [hkz] at h
    simp only [Bool.and_eq_true, decide_eq_true_eq] at h
    exact ⟨kzRow, hkz, h.1.1.1.1.1, h.1.1.1.1.2, h.1.1.1.2, h.1.1.2, h.1.2, h.2⟩

/-- Monotonicity of one projection row's net cost in the certificate-price
scenario, all other configuration fields equal. -/
lemma projRow_netCost_le (config : CbamConfig) (s1 s2 : String)
    (effScope : String) (sched : List MarkupRow) (defE : Option KzDefaultHit)
    (phase : PhaseRow) (kzRow : KzRow)
    (hkz : KZ_ETS_PRICE.find? (fun r => r.year == phase.year) = some kzRow)
    (hp : 0 ≤ phase.payableShare) (hq : 0 ≤ kzRow.quotaShare)
    (hqp : kzRow.quotaShare ≤ phase.payableShare)
    (hc1 : 0 ≤ certPriceFor phase.year s1)
    (h12 : certPriceFor phase.year s1 ≤ certPriceFor phase.year s2) :
    (projRow { config with certPriceScenario := s1 } effScope sched defE phase).netCost
      ≤ (projRow { config with certPriceScenario := s2 } effScope sched defE phase).netCost := by
  show jsRound (max 0
      ((config.importedQty * rawIntensity config effScope defE (markupFor sched phase.year))
          * phase.payableShare * certPriceFor phase.year s1
        - kzDeductionRaw { config with certPriceScenario := s1 } phase.year
            (certPriceFor phase.year s1)
            (config.importedQty * rawIntensity config effScope defE (markupFor sched phase.year))))
    ≤ jsRound (max 0
      ((config.importedQty * rawIntensity config effScope defE (markupFor sched phase.year))
          * phase.payableShare * certPriceFor phase.year s2
        - kzDeductionRaw { config with certPriceScenario := s2 } phase.year
            (certPriceFor phase.year s2)
            (config.importedQty * rawIntensity config effScope defE (markupFor sched phase.year))))
  apply jsRound_mono
  by_cases hb : (config.carbonCreditEligible && (config.carbonCreditScenario != "NONE")) = true
  · have hd1 : kzDeductionRaw { config with certPriceScenario := s1 } phase.year
        (certPriceFor phase.year s1)
        (config.importedQty * rawIntensity config effScope defE (markupFor sched phase.year))
        = min (certPriceFor phase.year s1)
            (jsOrQ (kzPriceField kzRow config.carbonCreditScenario.toLower) 0)
          * (config.importedQty * rawIntensity config effScope defE (markupFor sched phase.year))
          * kzRow.quotaShare := by
      simp [kzDeductionRaw, hb, hkz]
    have hd2 : kzDeductionRaw { config with certPriceScenario := s2 } phase.year
        (certPriceFor phase.year s2)
        (config.importedQty * rawIntensity config effScope defE (markupFor sched phase.year))
        = min (certPriceFor phase.year s2)
            (jsOrQ (kzPriceField kzRow config.carbonCreditScenario.toLower) 0)
          * (config.importedQty * rawIntensity config effScope defE (markupFor sched phase.year))
          * kzRow.quotaShare := by
      simp [kzDeductionRaw, hb, hkz]
    rw [hd1, hd2]
    exact net_mono_ded _ _ _ _ _ _ hc1 h12 hp hq hqp
  · have hb' : (config.carbonCreditEligible && (config.carbonCreditScenario != "NONE")) = false :=
      Bool.not_eq_true _ ▸ Bool.of_not_eq_true hb
    have hd1 : kzDeductionRaw { config with certPriceScenario := s1 } phase.year
        (certPriceFor phase.year s1)
        (config.importedQty * rawIntensity config effScope defE (markupFor sched phase.year)) = 0 := by
      simp [kzDeductionRaw, hb']
    have hd2 : kzDeductionRaw { config with certPriceScenario := s2 } phase.year
        (certPriceFor phase.year s2)
        (config.importedQty * rawIntensity config effScope defE (markupFor sched phase.year)) = 0 := by
      simp [kzDeductionRaw, hb']
    rw [hd1, hd2, sub_zero, sub_zero]
    exact net_mono_noded _ _ _ _ hc1 h12 hp

/-- C3: for every base configuration and every projection year,
`compareCertPriceScenarios` yields netCost(LOW) ≤ netCost(MID) ≤
netCost(HIGH). -/
theorem certPriceScenarios_netCost_monotone (config : CbamConfig) (i : ℕ) (hi : i < 9) :
    (((compareCertPriceScenarios config).getD 0 emptyScenarioResult).projection.rows.getD i
        emptyProjectionRow).netCost
      ≤ (((compareCertPriceScenarios config).getD 1 emptyScenarioResult).projection.rows.getD i
          emptyProjectionRow).netCost
    ∧ (((compareCertPriceScenarios config).getD 1 emptyScenarioResult).projection.rows.getD i
          emptyProjectionRow).netCost
      ≤ (((compareCertPriceScenarios config).getD 2 emptyScenarioResult).projection.rows.getD i
          emptyProjectionRow).netCost := by
  have hlen9 : CBAM_PHASE_IN.length = 9 := rfl
  have hlen : i < CBAM_PHASE_IN.length := by omega
  have hmem : CBAM_PHASE_IN.getD i { year := 0, freeAllocation := 0, payableShare := 0 }
      ∈ CBAM_PHASE_IN := getD_mem_of_lt _ CBAM_PHASE_IN i hlen
  obtain ⟨kzRow, hkz, hp, hq, hqp, hcL, hLM, hMH⟩ :=
    c3Table_spec (CBAM_PHASE_IN.getD i { year := 0, freeAllocation := 0, payableShare := 0 }) hmem
  have h0 : ((compareCertPriceScenarios config).getD 0
        emptyScenarioResult).projection.rows.getD i emptyProjectionRow
      = projRow { config with certPriceScenario := "LOW" }
          (jsOrStr config.scope (getDefaultScope config.goodCategory))
          (getMarkupSchedule config.goodCategory) (getKzDefault config.cnCode)
          (CBAM_PHASE_IN.getD i { year := 0, freeAllocation := 0, payableShare := 0 }) :=
    getD_map_of_lt _ _ _ CBAM_PHASE_IN i hlen
  have h1 : ((compareCertPriceScenarios config).getD 1
        emptyScenarioResult).projection.rows.getD i emptyProjectionRow
      = projRow { config with certPriceScenario := "MID" }
          (jsOrStr config.scope (getDefaultScope config.goodCategory))
          (getMarkupSchedule config.goodCategory) (getKzDefault config.cnCode)
          (CBAM_PHASE_IN.getD i { year := 0, freeAllocation := 0, payableShare := 0 }) :=
    getD_map_of_lt _ _ _ CBAM_PHASE_IN i hlen
  have h2 : ((compareCertPriceScenarios config).getD 2
        emptyScenarioResult).projection.rows.getD i emptyProjectionRow
      = projRow { config with certPriceScenario := "HIGH" }
          (jsOrStr config.scope (getDefaultScope config.goodCategory))
          (getMarkupSchedule config.goodCategory) (getKzDefault config.cnCode)
          (CBAM_PHASE_IN.getD i { year := 0, freeAllocation := 0, payableShare := 0 }) :=
    getD_map_of_lt _ _ _ CBAM_PHASE_IN i hlen
  rw [h0, h1, h2]
  constructor
  · exact projRow_netCost_le config "LOW" "MID" _ _ _ _ kzRow hkz hp hq hqp hcL hLM
  · exact projRow_netCost_le config "MID" "HIGH" _ _ _ _ kzRow hkz hp hq hqp
      (le_trans hcL hLM) hMH

-- ═══════════════════════════════════════════════════════════════
--  C7 — error behaviour of evaluate
-- ═══════════════════════════════════════════════════════════════

/-- A character the tokenizer can consume: whitespace, a number start, an
identifier start, or an operator/parenthesis. -/
def validChar (c : Char) : Bool :=
  c.isWhitespace || isNumStart c || isIdentStart c || (charToOp c).isSome

lemma ebind_ok {ε α β : Type _} (a : α) (f : α → Except ε β) :
    (Except.ok a : Except ε α) >>= f = f a := rfl

lemma ebind_error {ε α β : Type _} (e : ε) (f : α → Except ε β) :
    (Except.error e : Except ε α) >>= f = .error e := rfl

lemma emap_error {ε α β : Type _} (f : α → β) (e : ε) :
    (Except.error e : Except ε α).map f = .error e := rfl

lemma length_dropWhile_le_self {α : Type _} (p : α → Bool) :
    ∀ l : List α, (l.dropWhile p).length ≤ l.length
  | [] => le_refl _
  | a :: l => by
    by_cases h : p a
    · rw [List.dropWhile_cons_of_pos h]
      exact le_trans (length_dropWhile_le_self p l) (Nat.le_succ _)
    · rw [List.dropWhile_cons_of_neg h]

lemma validChar_of_numCont {c : Char} (h : isNumCont c = true) : validChar c = true := by
  simp only [isNumCont, Bool.or_eq_true] at h
  rcases h with ((hd | hdot) | he) | hE
  · simp [validChar, isNumStart, hd]
  · simp [validChar, isNumStart, hdot]
  · have hc : c = 'e' := by simpa using he
    subst hc
    decide
  · have hc : c = 'E' := by simpa using hE
    subst hc
    decide

lemma validChar_of_identCont {c : Char} (h : isIdentCont c = true) : validChar c = true := by
  simp only [isIdentCont, Bool.or_eq_true] at h
  rcases h with (ha | hd) | hu
  · simp [validChar, isIdentStart, ha]
  · simp [validChar, isNumStart, hd]
  · simp [validChar, isIdentStart, hu]

lemma numCont_of_numStart {c : Char} (h : isNumStart c = true) : isNumCont c = true := by
  simp only [isNumStart, Bool.or_eq_true] at h
  rcases h with h | h <;> simp [isNumCont, h]

lemma identCont_of_identStart {c : Char} (h : isIdentStart c = true) : isIdentCont c = true := by
  simp only [isIdentStart, Bool.or_eq_true] at h
  rcases h with h | h <;> simp [isIdentCont, h]

/-- An all-whitespace character list tokenizes to the empty token list. -/
lemma tokenizeLoop_blank : ∀ (fuel : ℕ) (cs : List Char), cs.length < fuel →
    cs.all Char.isWhitespace = true → tokenizeLoop fuel cs = .ok [] := by
  intro fuel
  induction fuel with
  | zero => intro cs h _; exact absurd h (Nat.not_lt_zero _)
  | succ fuel ih =>
    intro cs hlt hall
    cases cs with
    | nil => rfl
    | cons c rest =>
      simp only [List.all_cons, Bool.and_eq_true] at hall
      simp only [tokenizeLoop]
      rw [if_pos hall.1]
      exact ih rest (by simpa using Nat.lt_of_succ_lt_succ (by simpa using hlt)) hall.2

/-- A character the tokenizer cannot consume forces a tokenizer error. -/
lemma tokenizeLoop_error_of_invalid : ∀ (fuel : ℕ) (cs : List Char), cs.length < fuel →
    (∃ c ∈ cs, validChar c = false) → ∃ e, tokenizeLoop fuel cs = .error e := by
  intro fuel
  induction fuel with
  | zero => intro cs h _; exact absurd h (Nat.not_lt_zero _)
  | succ fuel ih =>
    rintro cs hlt ⟨c0, hc0mem, hc0⟩
    cases cs with
    | nil => simp at hc0mem
    | cons c rest =>
      have hrestlen : rest.length < fuel := by
        simpa using Nat.lt_of_succ_lt_succ (by simpa using hlt)
      by_cases hws : c.isWhitespace
      · have hc0' : c0 ∈ rest := by
          rcases List.mem_cons.mp hc0mem with rfl | hm
          · simp [validChar, hws] at hc0
          · exact hm
        obtain ⟨e, he⟩ := ih rest hrestlen ⟨c0, hc0', hc0⟩
        refine ⟨e, ?_⟩
        simp only [tokenizeLoop]
        rw [if_pos hws]
        exact he
      · by_cases hnum : isNumStart c = true
        · have hsplit := List.takeWhile_append_dropWhile (p := isNumCont) (l := c :: rest)
          have hc0' : c0 ∈ (c :: rest).dropWhile isNumCont := by
            rw [← hsplit] at hc0mem
            rcases List.mem_append.mp hc0mem with hm | hm
            · exact absurd (validChar_of_numCont (List.mem_takeWhile_imp hm)) (by simp [hc0])
            · exact hm
          have hdroplen : ((c :: rest).dropWhile isNumCont).length < fuel := by
            rw [List.dropWhile_cons_of_pos (numCont_of_numStart hnum)]
            exact lt_of_le_of_lt (length_dropWhile_le_self _ _) hrestlen
          obtain ⟨e, he⟩ := ih _ hdroplen ⟨c0, hc0', hc0⟩
          cases hpf : parseFloatQ ((c :: rest).takeWhile isNumCont) with
          | none =>
            refine ⟨"Invalid number: " ++ String.mk ((c :: rest).takeWhile isNumCont), ?_⟩
            simp only [tokenizeLoop]
            rw [if_neg hws, if_pos hnum, hpf]
          | some v =>
            refine ⟨e, ?_⟩
            simp only [tokenizeLoop]
            rw [if_neg hws, if_pos hnum, hpf, he]
            rfl
        · by_cases hident : isIdentStart c = true
          · have hsplit := List.takeWhile_append_dropWhile (p := isIdentCont) (l := c :: rest)
            have hc0' : c0 ∈ (c :: rest).dropWhile isIdentCont := by
              rw [← hsplit] at hc0mem
              rcases List.mem_append.mp hc0mem with hm | hm
              · exact absurd (validChar_of_identCont (List.mem_takeWhile_imp hm))
                  (by simp [hc0])
              · exact hm
            have hdroplen : ((c :: rest).dropWhile isIdentCont).length < fuel := by
              rw [List.dropWhile_cons_of_pos (identCont_of_identStart hident)]
              exact lt_of_le_of_lt (length_dropWhile_le_self _ _) hrestlen
            obtain ⟨e, he⟩ := ih _ hdroplen ⟨c0, hc0', hc0⟩
            refine ⟨e, ?_⟩
            simp only [tokenizeLoop]
            rw [if_neg hws, if_neg hnum, if_pos hident, he]
            rfl
          · cases hop : charToOp c with
            | some t =>
              have hc0' : c0 ∈ rest := by
                rcases List.mem_cons.mp hc0mem with rfl | hm
                · simp [validChar, hop] at hc0
                · exact hm
              obtain ⟨e, he⟩ := ih rest hrestlen ⟨c0, hc0', hc0⟩
              refine ⟨e, ?_⟩
              simp only [tokenizeLoop]
              rw [if_neg hws, if_neg hnum, if_neg hident, hop, he]
              rfl
            | none =>
              refine ⟨"Unexpected character: " ++ String.mk [c], ?_⟩
              simp only [tokenizeLoop]
              rw [if_neg hws, if_neg hnum, if_neg hident, hop]

/-- The invariant relating the identifier tokens a parser run consumed to
the variable map: every identifier of the input is either still unconsumed
or was found in the map. -/
def identsKnown (vars : List (String × ℚ)) (ts rest : List Token) : Prop :=
  ∀ n, Token.ident n ∈ ts → Token.ident n ∈ rest ∨ (lookupVar vars n).isSome

lemma identsKnown_refl (vars : List (String × ℚ)) (ts : List Token) :
    identsKnown vars ts ts := fun _ hn => Or.inl hn

lemma identsKnown_trans {vars : List (String × ℚ)} {ts mid rest : List Token}
    (h1 : identsKnown vars ts mid) (h2 : identsKnown vars mid rest) :
    identsKnown vars ts rest := fun n hn =>
  match h1 n hn with
  | Or.inl hm => h2 n hm
  | Or.inr hk => Or.inr hk

lemma identsKnown_cons_op {vars : List (String × ℚ)} (t : Token)
    (ht : ∀ n, t ≠ Token.ident n) {ts rest : List Token}
    (h : identsKnown vars ts rest) : identsKnown vars (t :: ts) rest := by
  intro n hn
  rcases List.mem_cons.mp hn with h1 | h1
  · exact absurd h1.symm (ht n)
  · exact h n h1

/-- The identifier invariant for all seven parser functions, by induction on
the fuel. -/
lemma parser_ident_inv : ∀ fuel : ℕ,
    (∀ vars ts v rest, expressionP fuel vars ts = .ok (v, rest) → identsKnown vars ts rest)
    ∧ (∀ vars acc ts v rest, exprLoopP fuel vars acc ts = .ok (v, rest) → identsKnown vars ts rest)
    ∧ (∀ vars ts v rest, termP fuel vars ts = .ok (v, rest) → identsKnown vars ts rest)
    ∧ (∀ vars acc ts v rest, termLoopP fuel vars acc ts = .ok (v, rest) → identsKnown vars ts rest)
    ∧ (∀ vars ts v rest, powerP fuel vars ts = .ok (v, rest) → identsKnown vars ts rest)
    ∧ (∀ vars ts v rest, unaryP fuel vars ts = .ok (v, rest) → identsKnown vars ts rest)
    ∧ (∀ vars ts v rest, primaryP fuel vars ts = .ok (v, rest) → identsKnown vars ts rest) := by
  intro fuel
  induction fuel with
  | zero =>
    refine ⟨?_, ?_, ?_, ?_, ?_, ?_, ?_⟩ <;> intros <;>
      simp [expressionP, exprLoopP, termP, termLoopP, powerP, unaryP, primaryP] at *
  | succ fuel ih =>
    obtain ⟨ihE, ihEL, ihT, ihTL, ihP, ihU, ihPr⟩ := ih
    have hExpr : ∀ vars ts v rest, expressionP (fuel + 1) vars ts = .ok (v, rest) →
        identsKnown vars ts rest := by
      intro vars ts v rest h
      simp only [expressionP] at h
      cases htm : termP fuel vars ts with
      | error e => rw [htm, ebind_error] at h; cases h
      | ok p =>
        obtain ⟨v1, ts1⟩ := p
        rw [htm, ebind_ok] at h
        exact identsKnown_trans (ihT vars ts v1 ts1 htm) (ihEL vars v1 ts1 v rest h)
    have hPrim : ∀ vars ts v rest, primaryP (fuel + 1) vars ts = .ok (v, rest) →
        identsKnown vars ts rest := by
      intro vars ts v rest h
      cases ts with
      | nil => simp [primaryP] at h
      | cons t tl =>
        cases t with
        | num w =>
          simp only [primaryP] at h
          cases h
          exact identsKnown_cons_op _ (by intro n; simp) (identsKnown_refl vars _)
        | ident m =>
          simp only [primaryP] at h
          cases hlk : lookupVar vars m with
          | none => rw [hlk] at h; cases h
          | some w =>
            rw [hlk] at h
            cases h
            intro n hn
            rcases List.mem_cons.mp hn with h1 | h1
            · have hnm : n = m := by cases h1; rfl
              subst hnm
              exact Or.inr (by rw [hlk]; rfl)
            · exact Or.inl h1
        | lparen =>
          simp only [primaryP] at h
          cases hex : expressionP fuel vars tl with
          | error e => rw [hex, ebind_error] at h; cases h
          | ok p =>
            obtain ⟨v1, ts1⟩ := p
            rw [hex, ebind_ok] at h
            replace h : (match ts1 with
                | Token.rparen :: ts2 => Except.ok (v1, ts2)
                | _ => (Except.error "Expected RPAREN" : Except String (ℚ × List Token)))
                = Except.ok (v, rest) := h
            cases ts1 with
            | nil => cases h
            | cons t1 ts2 =>
              cases t1 with
              | rparen =>
                cases h
                refine identsKnown_cons_op _ (by intro n; simp) ?_
                refine identsKnown_trans (ihE vars _ _ _ hex) ?_
                exact identsKnown_cons_op _ (by intro n; simp) (identsKnown_refl vars _)
              | num w => cases h
              | ident m => cases h
              | plus => cases h
              | minus => cases h
              | star => cases h
              | slash => cases h
              | caret => cases h
              | lparen => cases h
        | plus => simp [primaryP] at h
        | minus => simp [primaryP] at h
        | star => simp [primaryP] at h
        | slash => simp [primaryP] at h
        | caret => simp [primaryP] at h
        | rparen => simp [primaryP] at h
    have hUnary : ∀ vars ts v rest, unaryP (fuel + 1) vars ts = .ok (v, rest) →
        identsKnown vars ts rest := by
      intro vars ts v rest h
      cases ts with
      | nil => simp only [unaryP] at h; exact ihPr _ _ _ _ h
      | cons t tl =>
        cases t with
        | minus =>
          simp only [unaryP] at h
          cases hpr : primaryP fuel vars tl with
          | error e => rw [hpr, ebind_error] at h; cases h
          | ok p =>
            obtain ⟨v1, ts1⟩ := p
            rw [hpr, ebind_ok] at h
            replace h : (Except.ok (-v1, ts1) : Except String (ℚ × List Token))
                = Except.ok (v, rest) := h
            cases h
            exact identsKnown_cons_op _ (by intro n; simp) (ihPr vars _ _ _ hpr)
        | num w => simp only [unaryP] at h; exact ihPr _ _ _ _ h
        | ident m => simp only [unaryP] at h; exact ihPr _ _ _ _ h
        | plus => simp only [unaryP] at h; exact ihPr _ _ _ _ h
        | star => simp only [unaryP] at h; exact ihPr _ _ _ _ h
        | slash => simp only [unaryP] at h; exact ihPr _ _ _ _ h
        | caret => simp only [unaryP] at h; exact ihPr _ _ _ _ h
        | lparen => simp only [unaryP] at h; exact ihPr _ _ _ _ h
        | rparen => simp only [unaryP] at h; exact ihPr _ _ _ _ h
    have hPower : ∀ vars ts v rest, powerP (fuel + 1) vars ts = .ok (v, rest) →
        identsKnown vars ts rest := by
      intro vars ts v rest h
      simp only [powerP] at h
      cases hun : unaryP fuel vars ts with
      | error e => rw [hun, ebind_error] at h; cases h
      | ok p =>
        obtain ⟨v1, ts1⟩ := p
        rw [hun, ebind_ok] at h
        replace h : (match ts1 with
            | Token.caret :: ts2 =>
              powerP fuel vars ts2 >>= fun q =>
                match jsPow v1 q.1 with
                | Except.ok w => Except.ok (w, q.2)
                | Except.error msg => Except.error msg
            | _ => Except.ok (v1, ts1)) = Except.ok (v, rest) := h
        cases ts1 with
        | nil =>
          cases h
          exact ihU vars _ _ _ hun
        | cons t1 ts2 =>
          cases t1 with
          | caret =>
            replace h : (powerP fuel vars ts2 >>= fun q =>
                match jsPow v1 q.1 with
                | Except.ok w => Except.ok (w, q.2)
                | Except.error msg => (Except.error msg : Except String (ℚ × List Token)))
                = Except.ok (v, rest) := h
            cases hpw : powerP fuel vars ts2 with
            | error e => rw [hpw, ebind_error] at h; cases h
            | ok q =>
              obtain ⟨v2, ts3⟩ := q
              rw [hpw, ebind_ok] at h
              replace h : (match jsPow v1 v2 with
                  | Except.ok w => Except.ok (w, ts3)
                  | Except.error msg =>
                    (Except.error msg : Except String (ℚ × List Token)))
                  = Except.ok (v, rest) := h
              cases hjp : jsPow v1 v2 with
              | error e => rw [hjp] at h; cases h
              | ok w =>
                rw [hjp] at h
                cases h
                refine identsKnown_trans (ihU vars _ _ _ hun) ?_
                exact identsKnown_cons_op _ (by intro n; simp) (ihP vars _ _ _ hpw)
          | num w => cases h; exact ihU vars _ _ _ hun
          | ident m => cases h; exact ihU vars _ _ _ hun
          | plus => cases h; exact ihU vars _ _ _ hun
          | minus => cases h; exact ihU vars _ _ _ hun
          | star => cases h; exact ihU vars _ _ _ hun
          | slash => cases h; exact ihU vars _ _ _ hun
          | lparen => cases h; exact ihU vars _ _ _ hun
          | rparen => cases h; exact ihU vars _ _ _ hun
    have hTermLoop : ∀ vars acc ts v rest, termLoopP (fuel + 1) vars acc ts = .ok (v, rest) →
        identsKnown vars ts rest := by
      intro vars acc ts v rest h
      cases ts with
      | nil => simp only [termLoopP] at h; cases h; exact identsKnown_refl _ _
      | cons t tl =>
        cases t with
        | star =>
          simp only [termLoopP] at h
          cases hpw : powerP fuel vars tl with
          | error e => rw [hpw, ebind_error] at h; cases h
          | ok p =>
            obtain ⟨v1, ts1⟩ := p
            rw [hpw, ebind_ok] at h
            replace h : termLoopP fuel vars (acc * v1) ts1 = Except.ok (v, rest) := h
            refine identsKnown_cons_op _ (by intro n; simp) ?_
            exact identsKnown_trans (ihP vars tl v1 ts1 hpw) (ihTL vars (acc * v1) ts1 v rest h)
        | slash =>
          simp only [termLoopP] at h
          cases hpw : powerP fuel vars tl with
          | error e => rw [hpw, ebind_error] at h; cases h
          | ok p =>
            obtain ⟨v1, ts1⟩ := p
            rw [hpw, ebind_ok] at h
            replace h : (if v1 = 0 then (Except.error nonFiniteMsg : Except String (ℚ × List Token))
                else termLoopP fuel vars (acc / v1) ts1) = Except.ok (v, rest) := h
            by_cases hz : v1 = 0
            · rw [if_pos hz] at h; cases h
            · rw [if_neg hz] at h
              refine identsKnown_cons_op _ (by intro n; simp) ?_
              exact identsKnown_trans (ihP vars tl v1 ts1 hpw)
                (ihTL vars (acc / v1) ts1 v rest h)
        | num w => simp only [termLoopP] at h; cases h; exact identsKnown_refl _ _
        | ident m => simp only [termLoopP] at h; cases h; exact identsKnown_refl _ _
        | plus => simp only [termLoopP] at h; cases h; exact identsKnown_refl _ _
        | minus => simp only [termLoopP] at h; cases h; exact identsKnown_refl _ _
        | caret => simp only [termLoopP] at h; cases h; exact identsKnown_refl _ _
        | lparen => simp only [termLoopP] at h; cases h; exact identsKnown_refl _ _
        | rparen => simp only [termLoopP] at h; cases h; exact identsKnown_refl _ _
    have hTerm : ∀ vars ts v rest, termP (fuel + 1) vars ts = .ok (v, rest) →
        identsKnown vars ts rest := by
      intro vars ts v rest h
      simp only [termP] at h
      cases hpw : powerP fuel vars ts with
      | error e => rw [hpw, ebind_error] at h; cases h
      | ok p =>
        obtain ⟨v1, ts1⟩ := p
        rw [hpw, ebind_ok] at h
        exact identsKnown_trans (ihP vars ts v1 ts1 hpw) (ihTL vars v1 ts1 v rest h)
    have hExprLoop : ∀ vars acc ts v rest, exprLoopP (fuel + 1) vars acc ts = .ok (v, rest) →
        identsKnown vars ts rest := by
      intro vars acc ts v rest h
      cases ts with
      | nil => simp only [exprLoopP] at h; cases h; exact identsKnown_refl _ _
      | cons t tl =>
        cases t with
        | plus =>
          simp only [exprLoopP] at h
          cases htm : termP fuel vars tl with
          | error e => rw [htm, ebind_error] at h; cases h
          | ok p =>
            obtain ⟨v1, ts1⟩ := p
            rw [htm, ebind_ok] at h
            replace h : exprLoopP fuel vars (acc + v1) ts1 = Except.ok (v, rest) := h
            refine identsKnown_cons_op _ (by intro n; simp) ?_
            exact identsKnown_trans (ihT vars tl v1 ts1 htm) (ihEL vars (acc + v1) ts1 v rest h)
        | minus =>
          simp only [exprLoopP] at h
          cases htm : termP fuel vars tl with
          | error e => rw [htm, ebind_error] at h; cases h
          | ok p =>
            obtain ⟨v1, ts1⟩ := p
            rw [htm, ebind_ok] at h
            replace h : exprLoopP fuel vars (acc - v1) ts1 = Except.ok (v, rest) := h
            refine identsKnown_cons_op _ (by intro n; simp) ?_
            exact identsKnown_trans (ihT vars tl v1 ts1 htm) (ihEL vars (acc - v1) ts1 v rest h)
        | num w => simp only [exprLoopP] at h; cases h; exact identsKnown_refl _ _
        | ident m => simp only [exprLoopP] at h; cases h; exact identsKnown_refl _ _
        | star => simp only [exprLoopP] at h; cases h; exact identsKnown_refl _ _
        | slash => simp only [exprLoopP] at h; cases h; exact identsKnown_refl _ _
        | caret => simp only [exprLoopP] at h; cases h; exact identsKnown_refl _ _
        | lparen => simp only [exprLoopP] at h; cases h; exact identsKnown_refl _ _
        | rparen => simp only [exprLoopP] at h; cases h; exact identsKnown_refl _ _
    exact ⟨hExpr, hExprLoop, hTerm, hTermLoop, hPower, hUnary, hPrim⟩

/-- A successful full parse implies every identifier token was found in the
variable map. -/
lemma parseTokens_ok_idents {vars : List (String × ℚ)} {ts : List Token} {v : ℚ}
    (h : parseTokens vars ts = .ok v) :
    ∀ n, Token.ident n ∈ ts → (lookupVar vars n).isSome := by
  intro n hn
  unfold parseTokens at h
  cases hex : expressionP (6 * ts.length + 8) vars ts with
  | error e => rw [hex] at h; cases h
  | ok p =>
    obtain ⟨v1, rest⟩ := p
    rw [hex] at h
    cases rest with
    | nil =>
      rcases (parser_ident_inv (6 * ts.length + 8)).1 vars ts v1 [] hex n hn with hm | hk
      · simp at hm
      · exact hk
    | cons t rest' => cases h

/-- `evaluate` on a non-blank formula whose tokenization fails. -/
lemma evaluate_token_error {s : String} {vars : List (String × ℚ)} {e : String}
    (hblank : ¬ emptyOrBlank s = true) (herr : tokenize s.data = .error e) :
    evaluate s vars = { value := none, error := some e } := by
  unfold evaluate
  rw [if_neg hblank, herr]

/-- `evaluate` on a non-blank formula whose tokenization succeeds. -/
lemma evaluate_of_tokenize_ok {s : String} {vars : List (String × ℚ)} {ts : List Token}
    (hblank : ¬ emptyOrBlank s = true) (hok : tokenize s.data = .ok ts) :
    evaluate s vars
      = match parseTokens vars ts with
        | .error e => { value := none, error := some e }
        | .ok v => { value := some v, error := none } := by
  unfold evaluate
  rw [if_neg hblank, hok]

/-- C7 counterexample: `"1.2.3"` is one of the claim's malformed-number
examples, yet `evaluate` accepts it — the tokenizer's `parseFloat` reads the
longest valid prefix 1.2 and the trailing `.3` is absorbed into the same
number token, so the result is 1.2 with no error rather than a null value
with an error string. -/
theorem evaluate_malformed_number_counterexample :
    evaluate "1.2.3" [] = { value := some 1.2, error := none }
    ∧ some (1.2 : ℚ) ≠ (none : Option ℚ) := by
  refine ⟨by with_unfolding_all decide, by simp⟩

/-- C7 amended: a formula containing a character the tokenizer does not
recognise, or (once tokenized) an identifier token not bound in the variable
map, makes `evaluate` return value null with an error; but a malformed
number run is parsed by longest-valid-prefix — `"1.2.3"` evaluates to 1.2
and `"3e"` to 3 with no error — and only a digit-free number token such as
`"."` produces the invalid-number error. -/
theorem evaluate_error_amended :
    (∀ (s : String) (vars : List (String × ℚ)),
      (∃ c ∈ s.data, validChar c = false) →
      (evaluate s vars).value = none ∧ (evaluate s vars).error.isSome)
    ∧ (∀ (s : String) (vars : List (String × ℚ)) (ts : List Token),
        tokenize s.data = .ok ts →
        (∃ n, Token.ident n ∈ ts ∧ lookupVar vars n = none) →
        (evaluate s vars).value = none ∧ (evaluate s vars).error.isSome)
    ∧ evaluate "1.2.3" [] = { value := some 1.2, error := none }
    ∧ evaluate "3e" [] = { value := some 3, error := none }
    ∧ (evaluate "." []).value = none ∧ (evaluate "." []).error.isSome := by
  refine ⟨?_, ?_, by with_unfolding_all decide, by with_unfolding_all decide,
    by with_unfolding_all decide, by with_unfolding_all decide⟩
  · rintro s vars ⟨c, hcmem, hcv⟩
    by_cases hblank : emptyOrBlank s = true
    · exfalso
      unfold emptyOrBlank at hblank
      have hw := List.all_eq_true.mp hblank c hcmem
      simp [validChar, hw] at hcv
    · obtain ⟨e, he⟩ :=
        tokenizeLoop_error_of_invalid (s.data.length + 1) s.data (Nat.lt_succ_self _)
          ⟨c, hcmem, hcv⟩
      rw [evaluate_token_error hblank he]
      exact ⟨rfl, rfl⟩
  · rintro s vars ts hok ⟨n, hmem, hnone⟩
    by_cases hblank : emptyOrBlank s = true
    · exfalso
      have hblank' : tokenize s.data = .ok [] := by
        unfold emptyOrBlank at hblank
        exact tokenizeLoop_blank _ _ (Nat.lt_succ_self _) hblank
      rw [hok] at hblank'
      cases hblank'
      simp at hmem
    · rw [evaluate_of_tokenize_ok hblank hok]
      cases hpt : parseTokens vars ts with
      | error e => exact ⟨rfl, rfl⟩
      | ok v =>
        exfalso
        have := parseTokens_ok_idents hpt n hmem
        rw [hnone] at this
        cases this

/-- C7 witness: an unexpected character and an unknown identifier both yield
a null value with an error. -/
theorem evaluate_error_amended_witness :
    ((evaluate "2$3" []).value = none ∧ (evaluate "2$3" []).error.isSome)
    ∧ ((evaluate "x+1" []).value = none ∧ (evaluate "x+1" []).error.isSome) :=
  ⟨evaluate_error_amended.1 "2$3" [] ⟨'$', by decide, by decide⟩,
   evaluate_error_amended.2.1 "x+1" [] [Token.ident "x", Token.plus, Token.num 1]
     (by with_unfolding_all rfl) ⟨"x", by decide, rfl⟩⟩

/-- The 2026 phase-in row, used to instantiate the C2 witness. -/
def phase2026 : PhaseRow := { year := 2026, freeAllocation := 0.975, payableShare := 0.025 }

/-- The 2026 KZ ETS row, used to instantiate the C2 witness. -/
def kz2026 : KzRow := { year := 2026, low := 1, mid := 5, high := 10, quotaShare := 0.0125 }

set_option maxRecDepth 2000 in
/-- C2 witness: the amended deduction formula instantiated at the demo
configuration and the 2026 row. -/
theorem cbam_deduction_amended_witness :
    kzDeductionRaw c5Config phase2026.year
        (certPriceFor phase2026.year c5Config.certPriceScenario)
        (c5Config.importedQty * rawIntensity c5Config "DIRECT_ONLY" none
          (markupFor MARKUP_SCHEDULE_standard phase2026.year))
      = min (certPriceFor phase2026.year c5Config.certPriceScenario)
          (jsOrQ (kzPriceField kz2026 c5Config.carbonCreditScenario.toLower) 0)
        * (c5Config.importedQty * rawIntensity c5Config "DIRECT_ONLY" none
            (markupFor MARKUP_SCHEDULE_standard phase2026.year))
        * kz2026.quotaShare :=
  ((cbam_deduction_amended c5Config).2 "DIRECT_ONLY" MARKUP_SCHEDULE_standard none
      phase2026).2.1 rfl (by decide) kz2026 (by with_unfolding_all rfl)

/-- C3 witness: the scenario ordering at the demo configuration in 2026. -/
theorem certPriceScenarios_netCost_monotone_witness :
    (((compareCertPriceScenarios c5Config).getD 0 emptyScenarioResult).projection.rows.getD 0
        emptyProjectionRow).netCost
      ≤ (((compareCertPriceScenarios c5Config).getD 1 emptyScenarioResult).projection.rows.getD 0
          emptyProjectionRow).netCost
    ∧ (((compareCertPriceScenarios c5Config).getD 1 emptyScenarioResult).projection.rows.getD 0
          emptyProjectionRow).netCost
      ≤ (((compareCertPriceScenarios c5Config).getD 2 emptyScenarioResult).projection.rows.getD 0
          emptyProjectionRow).netCost :=
  certPriceScenarios_netCost_monotone c5Config 0 (by norm_num)

end CarbonLedger
